import Mathlib

/-!
# way-cooler: xdg surface lifecycle and grab state machine

A shallow embedding of `src/compositor/xdg.c` and of the GLib event source of
`src/awesome/src/wayland_glib_interface.c`.

Conventions of the embedding.

* C `int` values (the four components of a `wlr_box`, the committed surface
  size) are `Int`.  Signed overflow is undefined behaviour in C, so the model
  describes the executions in which the `int` arithmetic of the source is
  defined.
* `uint32_t` serials are `Nat`; the source only compares them and resets them
  to `0`, it never does arithmetic on them.
* Pointers are natural-number handles.  A view is identified by `addr`, the
  address `calloc` returned for it.
* The external collaborators (damage sink, focus transfer, display round-trip,
  refresh hook, `g_source_destroy`) are logs: every call appends one record, in
  call order.  What a collaborator returns is an input of the function.
-/

namespace WayCooler

/-- The `struct wlr_box` of wlroots: `int x, y, width, height`. -/
structure wlr_box where
  x : Int
  y : Int
  width : Int
  height : Int
deriving DecidableEq, Repr

/-- A `pixman_region32_t`, kept as the list of its rectangles. -/
abbrev pixman_region32_t := List wlr_box

/-- The role of an xdg surface (`xdg_surface->role`). -/
inductive wlr_xdg_surface_role where
  | WLR_XDG_SURFACE_ROLE_NONE
  | WLR_XDG_SURFACE_ROLE_TOPLEVEL
  | WLR_XDG_SURFACE_ROLE_POPUP
deriving DecidableEq, Repr

/-- What the handlers read from a `struct wlr_xdg_surface *` at the moment a
signal is delivered.
* `handle` is the pointer itself, `surface` the `wlr_surface *` it wraps
  (`surface->surface`);
* `geometry` is the box `wlr_xdg_surface_get_geometry` fills in;
* `current_width`, `current_height` are `surface->surface->current.width` and
  `.height`;
* `configure_serial` is `surface->configure_serial`;
* `effective_damage` is what `wlr_surface_get_effective_damage` returns. -/
structure wlr_xdg_surface where
  handle : Nat
  surface : Nat
  role : wlr_xdg_surface_role
  geometry : wlr_box
  current_width : Int
  current_height : Int
  configure_serial : Nat
  effective_damage : pixman_region32_t
deriving DecidableEq, Repr

/-- The `surface_type` tag of a view; this file only ever writes `WC_XDG`. -/
inductive wc_surface_type where
  | WC_XDG
deriving DecidableEq, Repr

/-- The fields of `struct wc_view` that `xdg.c` reads or writes.  The listener
members (`map`, `unmap`, `commit`, `destroy`, `request_move`,
`request_resize`) and the list link live in `wc_server`. -/
structure wc_view where
  addr : Nat
  server : Nat
  xdg_surface : Nat
  surface_type : wc_surface_type
  mapped : Bool
  geo : wlr_box
  pending_geometry : wlr_box
  pending_serial : Nat
  is_pending_serial : Bool
deriving DecidableEq, Repr

/-- One call received by the damage sink.
* `region v r` is `wc_view_damage(view, &r)`;
* `whole v box` is `wc_view_damage_whole(view)` issued while the view's geometry
  was `box`. -/
inductive damage_request where
  | region (view : Nat) (r : pixman_region32_t)
  | whole (view : Nat) (box : wlr_box)
deriving DecidableEq, Repr

/-- The record a call `wc_view_damage_whole(view)` leaves in the damage sink. -/
def wc_view_damage_whole (view : wc_view) : damage_request :=
  damage_request.whole view.addr view.geo

/-- The record a call `wc_view_damage(view, &damage)` leaves in the damage
sink. -/
def wc_view_damage (view : wc_view) (damage : pixman_region32_t) : damage_request :=
  damage_request.region view.addr damage

/-- The result of a handler on one view: the view afterwards, the calls made to
the damage sink and the calls made to `wc_focus_view`, both in call order. -/
structure view_effect where
  view : wc_view
  damage : List damage_request
  focus : List Nat
deriving DecidableEq, Repr

/-- Handler `wc_xdg_surface_map` (xdg.c:16-27). -/
def wc_xdg_surface_map (view : wc_view) (surface : wlr_xdg_surface) : view_effect :=
  let view := { view with mapped := true }
  let focus := [view.addr]
  let box := surface.geometry
  let view := { view with geo := box }
  { view := view, damage := [wc_view_damage_whole view], focus := focus }

/-- Handler `wc_xdg_surface_unmap` (xdg.c:29-34). -/
def wc_xdg_surface_unmap (view : wc_view) : view_effect :=
  let view := { view with mapped := false }
  { view := view, damage := [wc_view_damage_whole view], focus := [] }

/-- Lines 54-59 of `wc_xdg_surface_commit`: the size-change step. -/
def commit_size_step (view : wc_view) (surface : wlr_xdg_surface) :
    wc_view × List damage_request :=
  let size_changed : Bool :=
    view.geo.width != surface.current_width ||
      view.geo.height != surface.current_height
  if size_changed then
    let d1 := wc_view_damage_whole view
    let view := { view with geo := { view.geo with width := surface.current_width } }
    let view := { view with geo := { view.geo with height := surface.current_height } }
    (view, [d1, wc_view_damage_whole view])
  else
    (view, [])

/-- Lines 61-78 of `wc_xdg_surface_commit`: the pending-geometry step, with
`size` the box read at line 49. -/
def commit_pending_step (view : wc_view) (surface : wlr_xdg_surface) (size : wlr_box) :
    wc_view × List damage_request :=
  let pending_serial := view.pending_serial
  if pending_serial > 0 && pending_serial >= surface.configure_serial then
    let view :=
      if view.pending_geometry.x != view.geo.x then
        { view with geo := { view.geo with
            x := view.pending_geometry.x + view.pending_geometry.width - size.width } }
      else view
    let view :=
      if view.pending_geometry.y != view.geo.y then
        { view with geo := { view.geo with
            y := view.pending_geometry.y + view.pending_geometry.height - size.height } }
      else view
    let d := wc_view_damage_whole view
    let view :=
      if pending_serial == surface.configure_serial then
        { view with pending_serial := 0, is_pending_serial := false }
      else view
    (view, [d])
  else
    (view, [])

/-- Handler `wc_xdg_surface_commit` (xdg.c:36-80). -/
def wc_xdg_surface_commit (view : wc_view) (surface : wlr_xdg_surface) : view_effect :=
  if !view.mapped then
    { view := view, damage := [], focus := [] }
  else
    let d0 := wc_view_damage view surface.effective_damage
    let size := surface.geometry
    let r1 := commit_size_step view surface
    let r2 := commit_pending_step r1.1 surface size
    { view := r2.1, damage := d0 :: (r1.2 ++ r2.2), focus := [] }

/-- Modelled from the spec: `wc_view_surface` is defined in view.c, which is not
part of the sources.  It yields the protocol surface of the view, which for an
xdg view is the `wlr_surface` wrapped by its xdg surface. -/
def wc_view_surface (_view : wc_view) (surface : wlr_xdg_surface) : Nat :=
  surface.surface

/-- Modelled from the spec: `enum wc_cursor_mode` is declared in cursor.h, which
is not part of the sources.  The spec lists the modes None, Move and Resize;
xdg.c names the last two. -/
inductive wc_cursor_mode where
  | WC_CURSOR_NONE
  | WC_CURSOR_MOVE
  | WC_CURSOR_RESIZE
deriving DecidableEq, Repr

/-- The member `grabbed` of `struct wc_cursor`, with the fields xdg.c writes.
`view` is a `struct wc_view *`; `none` is the null pointer. -/
structure wc_grabbed where
  view : Option Nat
  original_x : Int
  original_y : Int
  original_view_geo : wlr_box
  resize_edges : Nat
deriving DecidableEq, Repr

/-- Modelled from the spec: `struct wc_cursor` is declared in cursor.h, which is
not part of the sources.  `x` and `y` stand for `wlr_cursor->x` and
`wlr_cursor->y`, the pointer position, taken as integers. -/
structure wc_cursor where
  x : Int
  y : Int
  cursor_mode : wc_cursor_mode
  grabbed : wc_grabbed
deriving DecidableEq, Repr

/-- The six signals a view subscribes to in `wc_xdg_new_surface`. -/
inductive wc_signal where
  | map
  | unmap
  | commit
  | destroy
  | request_move
  | request_resize
deriving DecidableEq, Repr

/-- A `struct wl_listener` linked into a signal: `source` is the xdg surface
whose signal it is linked into, `view` the view that contains the listener
(what `wl_container_of` recovers). -/
structure wl_listener where
  signal : wc_signal
  source : Nat
  view : Nat
deriving DecidableEq, Repr

/-- The state `xdg.c` works on.
* `views` is the list `server->views`, in the order `wl_list_for_each` visits it;
* `listeners` holds every linked listener of every view, in the order
  `wl_signal_add` linked them;
* `focused_surface` is `server->seat->seat->pointer_state.focused_surface`;
* `damage` and `focus` are the calls received so far by the damage sink and by
  `wc_focus_view`. -/
structure wc_server where
  addr : Nat
  views : List wc_view
  listeners : List wl_listener
  cursor : wc_cursor
  focused_surface : Option Nat
  damage : List damage_request
  focus : List Nat
deriving DecidableEq, Repr

/-- Handler `wc_xdg_surface_destroy` (xdg.c:82-94): `wl_list_remove` unlinks the
view from `server->views` and unlinks each of its six listeners. -/
def wc_xdg_surface_destroy (server : wc_server) (view : Nat) : wc_server :=
  let server := { server with views := server.views.filter (fun v => v.addr != view) }
  let unlink (sig : wc_signal) (ls : List wl_listener) : List wl_listener :=
    ls.filter (fun l => !(l.signal == sig && l.view == view))
  let server := { server with listeners := unlink wc_signal.map server.listeners }
  let server := { server with listeners := unlink wc_signal.unmap server.listeners }
  let server := { server with listeners := unlink wc_signal.commit server.listeners }
  let server := { server with listeners := unlink wc_signal.request_move server.listeners }
  let server := { server with listeners := unlink wc_signal.request_resize server.listeners }
  let server := { server with listeners := unlink wc_signal.destroy server.listeners }
  server

/-- Handler `wc_xdg_toplevel_request_move` (xdg.c:96-121). -/
def wc_xdg_toplevel_request_move (server : wc_server) (view : wc_view)
    (xdg_surface : wlr_xdg_surface) : wc_server :=
  let cursor := server.cursor
  let focused_surface := server.focused_surface
  let surface := wc_view_surface view xdg_surface
  if some surface != focused_surface then
    server
  else
    let geo_box := xdg_surface.geometry
    let cursor := { cursor with cursor_mode := wc_cursor_mode.WC_CURSOR_MOVE }
    let cursor := { cursor with grabbed := { cursor.grabbed with view := some view.addr } }
    let cursor := { cursor with grabbed := { cursor.grabbed with
      original_x := cursor.x - view.geo.x } }
    let cursor := { cursor with grabbed := { cursor.grabbed with
      original_y := cursor.y - view.geo.y } }
    let cursor := { cursor with grabbed := { cursor.grabbed with
      original_view_geo := { x := view.geo.x, y := view.geo.y,
                             width := geo_box.width, height := geo_box.height } } }
    { server with cursor := cursor }

/-- Handler `wc_xdg_toplevel_request_resize` (xdg.c:123-152); `edges` is
`event->edges` of the request payload. -/
def wc_xdg_toplevel_request_resize (server : wc_server) (view : wc_view)
    (xdg_surface : wlr_xdg_surface) (edges : Nat) : wc_server :=
  let cursor := server.cursor
  let focused_surface := server.focused_surface
  let surface := wc_view_surface view xdg_surface
  if some surface != focused_surface then
    server
  else
    let geo_box := xdg_surface.geometry
    let cursor := { cursor with cursor_mode := wc_cursor_mode.WC_CURSOR_RESIZE }
    let cursor := { cursor with grabbed := { cursor.grabbed with view := some view.addr } }
    let cursor := { cursor with grabbed := { cursor.grabbed with original_x := cursor.x } }
    let cursor := { cursor with grabbed := { cursor.grabbed with original_y := cursor.y } }
    let cursor := { cursor with grabbed := { cursor.grabbed with
      original_view_geo := { x := view.geo.x, y := view.geo.y,
                             width := geo_box.width, height := geo_box.height } } }
    let cursor := { cursor with grabbed := { cursor.grabbed with resize_edges := edges } }
    { server with cursor := cursor }

/-- The view `calloc` returns at address `addr`, after lines 163-165 of
`wc_xdg_new_surface`: every field zero except `server`, `xdg_surface` and
`surface_type`. -/
def new_view (server : wc_server) (addr : Nat) (xdg_surface : wlr_xdg_surface) : wc_view :=
  { addr := addr
    server := server.addr
    xdg_surface := xdg_surface.handle
    surface_type := wc_surface_type.WC_XDG
    mapped := false
    geo := { x := 0, y := 0, width := 0, height := 0 }
    pending_geometry := { x := 0, y := 0, width := 0, height := 0 }
    pending_serial := 0
    is_pending_serial := false }

/-- Handler `wc_xdg_new_surface` (xdg.c:154-184); `addr` is the address `calloc`
returns.  `wl_signal_add` links a listener at the end of its signal,
`wl_list_insert(&server->views, ...)` links the view right after the list
head. -/
def wc_xdg_new_surface (server : wc_server) (addr : Nat) (xdg_surface : wlr_xdg_surface) :
    wc_server :=
  if xdg_surface.role != wlr_xdg_surface_role.WLR_XDG_SURFACE_ROLE_TOPLEVEL then
    server
  else
    let view := new_view server addr xdg_surface
    let add (sig : wc_signal) : wl_listener :=
      { signal := sig, source := xdg_surface.handle, view := view.addr }
    let server := { server with listeners := server.listeners ++ [add wc_signal.map] }
    let server := { server with listeners := server.listeners ++ [add wc_signal.unmap] }
    let server := { server with listeners := server.listeners ++ [add wc_signal.commit] }
    let server := { server with listeners := server.listeners ++ [add wc_signal.destroy] }
    let server := { server with listeners := server.listeners ++ [add wc_signal.request_move] }
    let server :=
      { server with listeners := server.listeners ++ [add wc_signal.request_resize] }
    { server with views := view :: server.views }

/-- The view stored at address `addr`, if it is linked in `server->views`. -/
def view_at (server : wc_server) (addr : Nat) : Option wc_view :=
  server.views.find? (fun v => v.addr == addr)

/-- Run a handler that works on the view at `addr`: the view is replaced in place
and the handler's calls are appended to the two logs. -/
def on_view (server : wc_server) (addr : Nat) (handler : wc_view → view_effect) : wc_server :=
  match view_at server addr with
  | none => server
  | some view =>
    let e := handler view
    { server with
      views := server.views.map (fun v => if v.addr == addr then e.view else v)
      damage := server.damage ++ e.damage
      focus := server.focus ++ e.focus }

/-- What a listener does when its signal fires: the `notify` callbacks installed
in `wc_xdg_new_surface`.  `xdg_surface` is the state of the emitting surface and
`edges` the payload of a resize request. -/
def wl_listener.notify (l : wl_listener) (server : wc_server) (xdg_surface : wlr_xdg_surface)
    (edges : Nat) : wc_server :=
  match l.signal with
  | wc_signal.map => on_view server l.view (fun v => wc_xdg_surface_map v xdg_surface)
  | wc_signal.unmap => on_view server l.view wc_xdg_surface_unmap
  | wc_signal.commit => on_view server l.view (fun v => wc_xdg_surface_commit v xdg_surface)
  | wc_signal.destroy => wc_xdg_surface_destroy server l.view
  | wc_signal.request_move =>
    match view_at server l.view with
    | none => server
    | some v => wc_xdg_toplevel_request_move server v xdg_surface
  | wc_signal.request_resize =>
    match view_at server l.view with
    | none => server
    | some v => wc_xdg_toplevel_request_resize server v xdg_surface edges

/-- The listeners a signal of the surface `source` invokes, in link order. -/
def listeners_of (server : wc_server) (sig : wc_signal) (source : Nat) : List wl_listener :=
  server.listeners.filter (fun l => l.signal == sig && l.source == source)

/-- Emission of signal `sig` by `xdg_surface` (`wl_signal_emit`): every listener
linked into that signal is notified in turn. -/
def wl_signal_emit (server : wc_server) (sig : wc_signal) (xdg_surface : wlr_xdg_surface)
    (edges : Nat) : wc_server :=
  (listeners_of server sig xdg_surface.handle).foldl
    (fun s l => l.notify s xdg_surface edges) server

/-- The events that drive the state machine.  `pointer_focus` is the seat (an
external collaborator) moving pointer focus. -/
inductive wc_event where
  | new_surface (addr : Nat) (xdg_surface : wlr_xdg_surface)
  | signal (sig : wc_signal) (xdg_surface : wlr_xdg_surface) (edges : Nat)
  | pointer_focus (surface : Option Nat)
deriving DecidableEq, Repr

/-- One event. -/
def step (server : wc_server) (e : wc_event) : wc_server :=
  match e with
  | wc_event.new_surface addr xdg_surface => wc_xdg_new_surface server addr xdg_surface
  | wc_event.signal sig xdg_surface edges => wl_signal_emit server sig xdg_surface edges
  | wc_event.pointer_focus surface => { server with focused_surface := surface }

/-- A sequence of events, oldest first. -/
def run (server : wc_server) (es : List wc_event) : wc_server :=
  es.foldl step server

/-- The server before any surface was announced: no view, no listener, no grab,
empty logs. -/
def wc_server_init (addr : Nat) (x y : Int) : wc_server :=
  { addr := addr
    views := []
    listeners := []
    cursor :=
      { x := x, y := y
        cursor_mode := wc_cursor_mode.WC_CURSOR_NONE
        grabbed :=
          { view := none, original_x := 0, original_y := 0
            original_view_geo := { x := 0, y := 0, width := 0, height := 0 }
            resize_edges := 0 } }
    focused_surface := none
    damage := []
    focus := [] }

/-- A map or an unmap signal delivered to one view. -/
inductive map_event where
  | map (xdg_surface : wlr_xdg_surface)
  | unmap
deriving DecidableEq, Repr

/-- Deliver one map or unmap signal to a view. -/
def map_event.deliver (view : wc_view) : map_event → wc_view
  | map_event.map xdg_surface => (wc_xdg_surface_map view xdg_surface).view
  | map_event.unmap => (wc_xdg_surface_unmap view).view

/-- Deliver a sequence of map and unmap signals to a view, oldest first. -/
def deliver_all (view : wc_view) (es : List map_event) : wc_view :=
  es.foldl map_event.deliver view

/-! ## The GLib event source (`src/awesome/src/wayland_glib_interface.c`) -/

/-- GLib's `G_IO_IN`, the poll bit "there is data to read". -/
def G_IO_IN : Nat := 1

/-- GLib's `G_IO_PRI`, the poll bit "there is urgent data to read". -/
def G_IO_PRI : Nat := 2

/-- GLib's `G_IO_OUT`, the poll bit "data can be written". -/
def G_IO_OUT : Nat := 4

/-- GLib's `G_IO_ERR`, the poll bit "error condition". -/
def G_IO_ERR : Nat := 8

/-- GLib's `G_IO_HUP`, the poll bit "hung up". -/
def G_IO_HUP : Nat := 16

/-- GLib's `G_IO_NVAL`, the poll bit "invalid request, the descriptor is not
open". -/
def G_IO_NVAL : Nat := 32

/-- GLib's `G_SOURCE_CONTINUE`: keep the source attached. -/
def G_SOURCE_CONTINUE : Bool := true

/-- The interest mask `wayland_glib_interface_init` registers for the display
descriptor (lines 115-117): `G_IO_IN | G_IO_ERR | G_IO_HUP`. -/
def display_fd_events : Nat := G_IO_IN ||| G_IO_ERR ||| G_IO_HUP

/-- The fields of `struct InterfaceEventSource` next to the embedded `GSource`:
the display, the compositor-state handle and the tag of the watched
descriptor. -/
structure InterfaceEventSource where
  display : Nat
  wayland_state : Nat
  fd_tag : Nat
deriving DecidableEq, Repr

/-- A call the event source makes to one of its collaborators. -/
inductive glib_call where
  | wl_display_roundtrip (display : Nat)
  | awesome_refresh (wayland_state : Nat)
  | exit (status : Int)
deriving DecidableEq, Repr

/-- What one dispatch did: the calls it made, in order, and the value it
returned; `returned = none` means the process terminated inside the call. -/
structure dispatch_outcome where
  calls : List glib_call
  returned : Option Bool
deriving DecidableEq, Repr

/-- The function `interface_check` (lines 42-51); `condition` is what
`g_source_query_unix_fd` reports for the display descriptor. -/
def interface_check (_interface_source : InterfaceEventSource) (condition : Nat) : Bool :=
  condition != 0

/-- The function `interface_dispatch` (lines 56-71); `roundtrip` is the value
`wl_display_roundtrip` returns during this dispatch. -/
def interface_dispatch (interface_source : InterfaceEventSource) (roundtrip : Int) :
    dispatch_outcome :=
  let calls := [glib_call.wl_display_roundtrip interface_source.display]
  if roundtrip == -1 then
    { calls := calls ++ [glib_call.exit 0], returned := none }
  else
    let calls := calls ++ [glib_call.awesome_refresh interface_source.wayland_state]
    { calls := calls, returned := some G_SOURCE_CONTINUE }

/-- The two file-scope variables `session_source` and `system_source` (`none` is
`NULL`), and the sources handed to `g_source_destroy` so far, in call order. -/
structure dbus_sources where
  session_source : Option Nat
  system_source : Option Nat
  destroyed : List Nat
deriving DecidableEq, Repr

/-- The function `remove_dbus_from_glib` (lines 84-93). -/
def remove_dbus_from_glib (s : dbus_sources) : dbus_sources :=
  let s :=
    match s.session_source with
    | some source => { s with destroyed := s.destroyed ++ [source], session_source := none }
    | none => s
  let s :=
    match s.system_source with
    | some source => { s with destroyed := s.destroyed ++ [source], system_source := none }
    | none => s
  s

/-! ## Concrete inputs -/

/-- A view at address 1 of server 0 for surface 10, with the given geometry,
pending geometry, pending serial and mapped flag; the has-pending flag is set
exactly when the serial is positive. -/
def sample_view (geo pending : wlr_box) (serial : Nat) (mapped : Bool) : wc_view :=
  { addr := 1
    server := 0
    xdg_surface := 10
    surface_type := wc_surface_type.WC_XDG
    mapped := mapped
    geo := geo
    pending_geometry := pending
    pending_serial := serial
    is_pending_serial := decide (0 < serial) }

/-- The top-level xdg surface 10 (wrapping surface 20) reporting the given
geometry, committed size and configure serial, with one damaged rectangle. -/
def sample_surface (geometry : wlr_box) (width height : Int) (configure_serial : Nat) :
    wlr_xdg_surface :=
  { handle := 10
    surface := 20
    role := wlr_xdg_surface_role.WLR_XDG_SURFACE_ROLE_TOPLEVEL
    geometry := geometry
    current_width := width
    current_height := height
    configure_serial := configure_serial
    effective_damage := [{ x := 0, y := 0, width := 1, height := 1 }] }

/-- A server whose pointer is at (150, 160), after the top-level surface 10 was
announced (its view allocated at address 1) and mapped with geometry
(40, 50, 300, 200), and after the seat moved pointer focus to `focused`. -/
def sample_server (focused : Option Nat) : wc_server :=
  run (wc_server_init 0 150 160)
    [wc_event.new_surface 1 (sample_surface ⟨40, 50, 300, 200⟩ 300 200 0),
     wc_event.signal wc_signal.map (sample_surface ⟨40, 50, 300, 200⟩ 300 200 0) 0,
     wc_event.pointer_focus focused]

/-- The xdg surface `handle` (wrapping surface `surface`) with the given role,
reporting the geometry (0, 0, 640, 480) and the committed size 640 x 480. -/
def sample_surface_with (handle surface : Nat) (role : wlr_xdg_surface_role) :
    wlr_xdg_surface :=
  { handle := handle
    surface := surface
    role := role
    geometry := { x := 0, y := 0, width := 640, height := 480 }
    current_width := 640
    current_height := 480
    configure_serial := 0
    effective_damage := [] }

/-! ## Commit: geometry reconciliation -/

/-- The size-change step never touches the position, the pending geometry, the
pending serial or the flags of the view. -/
theorem commit_size_step_frame (view : wc_view) (surface : wlr_xdg_surface) :
    (commit_size_step view surface).1.geo.x = view.geo.x ∧
    (commit_size_step view surface).1.geo.y = view.geo.y ∧
    (commit_size_step view surface).1.pending_geometry = view.pending_geometry ∧
    (commit_size_step view surface).1.pending_serial = view.pending_serial ∧
    (commit_size_step view surface).1.is_pending_serial = view.is_pending_serial ∧
    (commit_size_step view surface).1.mapped = view.mapped ∧
    (commit_size_step view surface).1.addr = view.addr := by
  simp only [commit_size_step]
  split_ifs <;> simp

/-- After the size-change step the stored size is the committed size. -/
theorem commit_size_step_size (view : wc_view) (surface : wlr_xdg_surface) :
    (commit_size_step view surface).1.geo.width = surface.current_width ∧
    (commit_size_step view surface).1.geo.height = surface.current_height := by
  simp only [commit_size_step]
  split_ifs with h
  · simp
  · simp at h
    exact ⟨h.1, h.2⟩

/-- C1. Anchoring law: on a mapped view whose pending change is applied by the
commit (pending serial positive and not below the surface's configure serial),
an axis whose pending target position differs from the current position ends at
pending position + pending dimension - the dimension the geometry query reports
at this commit, and an axis whose pending target equals the current position
keeps its position. -/
theorem commit_anchoring_law (view : wc_view) (surface : wlr_xdg_surface)
    (hmapped : view.mapped = true)
    (hserial : 0 < view.pending_serial)
    (hack : surface.configure_serial ≤ view.pending_serial) :
    (view.pending_geometry.x ≠ view.geo.x →
      (wc_xdg_surface_commit view surface).view.geo.x =
        view.pending_geometry.x + view.pending_geometry.width - surface.geometry.width) ∧
    (view.pending_geometry.x = view.geo.x →
      (wc_xdg_surface_commit view surface).view.geo.x = view.geo.x) ∧
    (view.pending_geometry.y ≠ view.geo.y →
      (wc_xdg_surface_commit view surface).view.geo.y =
        view.pending_geometry.y + view.pending_geometry.height - surface.geometry.height) ∧
    (view.pending_geometry.y = view.geo.y →
      (wc_xdg_surface_commit view surface).view.geo.y = view.geo.y) := by
  obtain ⟨hx, hy, hp, hs, -, -, -⟩ := commit_size_step_frame view surface
  simp only [wc_xdg_surface_commit, hmapped, commit_pending_step, hs, hp, hx, hy]
  have hg : (decide (view.pending_serial > 0) && decide (view.pending_serial ≥ surface.configure_serial)) = true := by
    simp [hserial, hack]
  simp only [hg]
  refine ⟨?_, ?_, ?_, ?_⟩ <;> intro h <;> split_ifs <;> simp_all

/-- Witness of C1: pending x = 100, pending width = 400, new width = 300 gives
x = 200, and the y axis, whose pending target equals the current y, stays. -/
theorem commit_anchoring_law_witness :
    (wc_xdg_surface_commit
        (sample_view ⟨0, 50, 400, 300⟩ ⟨100, 50, 400, 300⟩ 5 true)
        (sample_surface ⟨0, 0, 300, 300⟩ 300 300 5)).view.geo.x = 200 ∧
    (wc_xdg_surface_commit
        (sample_view ⟨0, 50, 400, 300⟩ ⟨100, 50, 400, 300⟩ 5 true)
        (sample_surface ⟨0, 0, 300, 300⟩ 300 300 5)).view.geo.y = 50 :=
  have h := commit_anchoring_law
    (sample_view ⟨0, 50, 400, 300⟩ ⟨100, 50, 400, 300⟩ 5 true)
    (sample_surface ⟨0, 0, 300, 300⟩ 300 300 5) (by decide) (by decide) (by decide)
  ⟨h.1 (by decide), h.2.2.2 (by decide)⟩

/-- The pending step when its guard holds: position anchored per axis, one
whole-view damage for the result, pending state cleared on exact equality. -/
theorem commit_pending_step_applied (view : wc_view) (surface : wlr_xdg_surface)
    (size : wlr_box) (hserial : 0 < view.pending_serial)
    (hack : surface.configure_serial ≤ view.pending_serial) :
    (commit_pending_step view surface size).1.geo.x =
      (if view.pending_geometry.x ≠ view.geo.x then
        view.pending_geometry.x + view.pending_geometry.width - size.width
       else view.geo.x) ∧
    (commit_pending_step view surface size).1.geo.y =
      (if view.pending_geometry.y ≠ view.geo.y then
        view.pending_geometry.y + view.pending_geometry.height - size.height
       else view.geo.y) ∧
    (commit_pending_step view surface size).1.geo.width = view.geo.width ∧
    (commit_pending_step view surface size).1.geo.height = view.geo.height ∧
    (commit_pending_step view surface size).2 =
      [damage_request.whole view.addr (commit_pending_step view surface size).1.geo] ∧
    (commit_pending_step view surface size).1.pending_serial =
      (if view.pending_serial = surface.configure_serial then 0 else view.pending_serial) ∧
    (commit_pending_step view surface size).1.is_pending_serial =
      (if view.pending_serial = surface.configure_serial then false
       else view.is_pending_serial) := by
  have hg : (decide (view.pending_serial > 0) &&
      decide (view.pending_serial ≥ surface.configure_serial)) = true := by
    simp [hserial, hack]
  simp only [commit_pending_step, hg, wc_view_damage_whole]
  refine ⟨?_, ?_, ?_, ?_, ?_, ?_, ?_⟩ <;> split_ifs <;> simp_all

/-- The pending step when its guard fails: nothing happens. -/
theorem commit_pending_step_skipped (view : wc_view) (surface : wlr_xdg_surface)
    (size : wlr_box)
    (h : view.pending_serial = 0 ∨ view.pending_serial < surface.configure_serial) :
    commit_pending_step view surface size = (view, []) := by
  have hg : (decide (view.pending_serial > 0) &&
      decide (view.pending_serial ≥ surface.configure_serial)) = false := by
    rcases h with h | h
    · simp [h]
    · simp [h]
  simp [commit_pending_step, hg]

/-- On a mapped view the commit is the region damage, then the size-change step,
then the pending step. -/
theorem commit_mapped (view : wc_view) (surface : wlr_xdg_surface)
    (hmapped : view.mapped = true) :
    wc_xdg_surface_commit view surface =
      { view := (commit_pending_step (commit_size_step view surface).1 surface
                  surface.geometry).1
        damage := damage_request.region view.addr surface.effective_damage ::
          ((commit_size_step view surface).2 ++
            (commit_pending_step (commit_size_step view surface).1 surface
              surface.geometry).2)
        focus := [] } := by
  simp [wc_xdg_surface_commit, hmapped, wc_view_damage]

/-- C2, as stated, fails: with target serial 5 and configure serial 6 (the
acknowledgement past the target) and a pending x of 100 that differs from the
current x of 0, the commit leaves x at 0 instead of 100 + 400 - 300 = 200 and
records no whole-view damage; with target serial 5 and configure serial 4 (the
acknowledgement not yet at the target) the commit does move x to 200. -/
theorem commit_gating_counterexample :
    (wc_xdg_surface_commit
        (sample_view ⟨0, 0, 300, 300⟩ ⟨100, 0, 400, 300⟩ 5 true)
        (sample_surface ⟨0, 0, 300, 300⟩ 300 300 6)).view.geo.x = 0 ∧
    (wc_xdg_surface_commit
        (sample_view ⟨0, 0, 300, 300⟩ ⟨100, 0, 400, 300⟩ 5 true)
        (sample_surface ⟨0, 0, 300, 300⟩ 300 300 6)).damage =
      [damage_request.region 1 [⟨0, 0, 1, 1⟩]] ∧
    (wc_xdg_surface_commit
        (sample_view ⟨0, 0, 300, 300⟩ ⟨100, 0, 400, 300⟩ 5 true)
        (sample_surface ⟨0, 0, 300, 300⟩ 300 300 4)).view.geo.x = 200 := by
  decide

/-- C2, amended. On a mapped view with an outstanding pending change (target
serial t > 0) and surface configure serial a, the anchored reposition is applied
exactly when a ≤ t: then each axis is anchored, one whole-view damage for the
resulting box ends the damage log, and the pending state is kept unless a = t;
when t < a the view is left as the size-change step produced it (position and
pending state unchanged) and no further damage is recorded. -/
theorem commit_gating (view : wc_view) (surface : wlr_xdg_surface)
    (hmapped : view.mapped = true) (hserial : 0 < view.pending_serial) :
    (surface.configure_serial ≤ view.pending_serial →
      (wc_xdg_surface_commit view surface).view.geo.x =
        (if view.pending_geometry.x ≠ view.geo.x then
          view.pending_geometry.x + view.pending_geometry.width - surface.geometry.width
         else view.geo.x) ∧
      (wc_xdg_surface_commit view surface).view.geo.y =
        (if view.pending_geometry.y ≠ view.geo.y then
          view.pending_geometry.y + view.pending_geometry.height - surface.geometry.height
         else view.geo.y) ∧
      (wc_xdg_surface_commit view surface).damage =
        damage_request.region view.addr surface.effective_damage ::
          ((commit_size_step view surface).2 ++
            [damage_request.whole view.addr (wc_xdg_surface_commit view surface).view.geo]) ∧
      (surface.configure_serial < view.pending_serial →
        (wc_xdg_surface_commit view surface).view.pending_serial = view.pending_serial ∧
        (wc_xdg_surface_commit view surface).view.is_pending_serial =
          view.is_pending_serial)) ∧
    (view.pending_serial < surface.configure_serial →
      (wc_xdg_surface_commit view surface).view = (commit_size_step view surface).1 ∧
      (wc_xdg_surface_commit view surface).view.geo.x = view.geo.x ∧
      (wc_xdg_surface_commit view surface).view.geo.y = view.geo.y ∧
      (wc_xdg_surface_commit view surface).view.pending_serial = view.pending_serial ∧
      (wc_xdg_surface_commit view surface).view.is_pending_serial =
        view.is_pending_serial ∧
      (wc_xdg_surface_commit view surface).damage =
        damage_request.region view.addr surface.effective_damage ::
          (commit_size_step view surface).2) := by
  obtain ⟨hx, hy, hp, hs, hf, -, ha⟩ := commit_size_step_frame view surface
  rw [commit_mapped view surface hmapped]
  constructor
  · intro hack
    obtain ⟨ax, ay, -, -, ad, as, af⟩ :=
      commit_pending_step_applied (commit_size_step view surface).1 surface
        surface.geometry (by rw [hs]; exact hserial) (by rw [hs]; exact hack)
    simp only [hx, hy, hp, hs, hf, ha] at ax ay ad as af
    refine ⟨ax, ay, ?_, ?_⟩
    · simp only [ad]
    · intro hlt
      have hne : view.pending_serial ≠ surface.configure_serial := by omega
      simp only [as, af, hne, if_false, and_self]
  · intro hlt
    have hskip := commit_pending_step_skipped (commit_size_step view surface).1 surface
      surface.geometry (Or.inr (by rw [hs]; exact hlt))
    simp only [hskip, List.append_nil, hx, hy, hs, hf, and_self]

/-- Witness of C2 (amended): target serial 5 with configure serial 4, and target
serial 5 with configure serial 6. -/
theorem commit_gating_witness :
    (wc_xdg_surface_commit
        (sample_view ⟨0, 0, 300, 300⟩ ⟨100, 0, 400, 300⟩ 5 true)
        (sample_surface ⟨0, 0, 300, 300⟩ 300 300 4)).view.pending_serial = 5 ∧
    (wc_xdg_surface_commit
        (sample_view ⟨0, 0, 300, 300⟩ ⟨100, 0, 400, 300⟩ 5 true)
        (sample_surface ⟨0, 0, 300, 300⟩ 300 300 6)).view.geo.x = 0 :=
  ⟨((commit_gating (sample_view ⟨0, 0, 300, 300⟩ ⟨100, 0, 400, 300⟩ 5 true)
      (sample_surface ⟨0, 0, 300, 300⟩ 300 300 4) (by decide) (by decide)).1
        (by decide)).2.2.2 (by decide) |>.1,
   ((commit_gating (sample_view ⟨0, 0, 300, 300⟩ ⟨100, 0, 400, 300⟩ 5 true)
      (sample_surface ⟨0, 0, 300, 300⟩ 300 300 6) (by decide) (by decide)).2
        (by decide)).2.1⟩

/-- C3. Sequence-number law: on a mapped view with an outstanding pending change
(pending serial positive), the commit clears the pending state (serial 0 and
has-pending flag false) if and only if the surface's configure serial equals the
pending serial; otherwise the serial and the flag are left as they were. -/
theorem commit_clears_pending_iff (view : wc_view) (surface : wlr_xdg_surface)
    (hmapped : view.mapped = true) (hserial : 0 < view.pending_serial) :
    (((wc_xdg_surface_commit view surface).view.pending_serial = 0 ∧
        (wc_xdg_surface_commit view surface).view.is_pending_serial = false) ↔
      surface.configure_serial = view.pending_serial) ∧
    (surface.configure_serial ≠ view.pending_serial →
      (wc_xdg_surface_commit view surface).view.pending_serial = view.pending_serial ∧
      (wc_xdg_surface_commit view surface).view.is_pending_serial =
        view.is_pending_serial) := by
  obtain ⟨-, -, -, hs, hf, -, -⟩ := commit_size_step_frame view surface
  rw [commit_mapped view surface hmapped]
  have key : surface.configure_serial ≠ view.pending_serial →
      (commit_pending_step (commit_size_step view surface).1 surface
        surface.geometry).1.pending_serial = view.pending_serial ∧
      (commit_pending_step (commit_size_step view surface).1 surface
        surface.geometry).1.is_pending_serial = view.is_pending_serial := by
    intro hne
    rcases Nat.lt_or_gt_of_ne hne with hlt | hgt
    · obtain ⟨-, -, -, -, -, as, af⟩ :=
        commit_pending_step_applied (commit_size_step view surface).1 surface
          surface.geometry (by rw [hs]; exact hserial) (by rw [hs]; exact hlt.le)
      simp only [hs, hf] at as af
      have hne2 : view.pending_serial ≠ surface.configure_serial := fun h => hne h.symm
      simp only [as, af, hne2, if_false, and_self]
    · rw [commit_pending_step_skipped (commit_size_step view surface).1 surface
        surface.geometry (Or.inr (by rw [hs]; exact hgt))]
      exact ⟨hs, hf⟩
  refine ⟨⟨?_, ?_⟩, key⟩
  · intro hc
    by_contra hne
    have h1 := (key hne).1
    have h2 := hc.1
    dsimp only at h2
    omega
  · intro heq
    obtain ⟨-, -, -, -, -, as, af⟩ :=
      commit_pending_step_applied (commit_size_step view surface).1 surface
        surface.geometry (by rw [hs]; exact hserial) (by rw [hs]; exact heq.le)
    simp only [hs, hf] at as af
    simp only [as, af, heq.symm, if_true, and_self]

/-- Witness of C3: target serial 5 acknowledged with serial 5 clears the pending
state; acknowledged with serial 3 it stays. -/
theorem commit_clears_pending_iff_witness :
    ((wc_xdg_surface_commit
        (sample_view ⟨0, 0, 300, 300⟩ ⟨100, 0, 400, 300⟩ 5 true)
        (sample_surface ⟨0, 0, 300, 300⟩ 300 300 5)).view.pending_serial = 0 ∧
      (wc_xdg_surface_commit
        (sample_view ⟨0, 0, 300, 300⟩ ⟨100, 0, 400, 300⟩ 5 true)
        (sample_surface ⟨0, 0, 300, 300⟩ 300 300 5)).view.is_pending_serial = false) ∧
    ((wc_xdg_surface_commit
        (sample_view ⟨0, 0, 300, 300⟩ ⟨100, 0, 400, 300⟩ 5 true)
        (sample_surface ⟨0, 0, 300, 300⟩ 300 300 3)).view.pending_serial = 5 ∧
      (wc_xdg_surface_commit
        (sample_view ⟨0, 0, 300, 300⟩ ⟨100, 0, 400, 300⟩ 5 true)
        (sample_surface ⟨0, 0, 300, 300⟩ 300 300 3)).view.is_pending_serial = true) :=
  ⟨(commit_clears_pending_iff (sample_view ⟨0, 0, 300, 300⟩ ⟨100, 0, 400, 300⟩ 5 true)
      (sample_surface ⟨0, 0, 300, 300⟩ 300 300 5) (by decide) (by decide)).1.2 (by decide),
   (commit_clears_pending_iff (sample_view ⟨0, 0, 300, 300⟩ ⟨100, 0, 400, 300⟩ 5 true)
      (sample_surface ⟨0, 0, 300, 300⟩ 300 300 3) (by decide) (by decide)).2 (by decide)⟩

/-- The size-change step when the committed size differs from the stored one:
whole-view damage for the old box, the size is stored, whole-view damage for
the new box. -/
theorem commit_size_step_changed (view : wc_view) (surface : wlr_xdg_surface)
    (h : view.geo.width ≠ surface.current_width ∨
      view.geo.height ≠ surface.current_height) :
    (commit_size_step view surface).2 =
      [damage_request.whole view.addr view.geo,
       damage_request.whole view.addr
         ⟨view.geo.x, view.geo.y, surface.current_width, surface.current_height⟩] := by
  have hg : (view.geo.width != surface.current_width ||
      view.geo.height != surface.current_height) = true := by
    rcases h with h | h <;> simp [h]
  simp [commit_size_step, hg, wc_view_damage_whole]

/-- The size-change step when the committed size is the stored one: nothing
happens. -/
theorem commit_size_step_unchanged (view : wc_view) (surface : wlr_xdg_surface)
    (hw : view.geo.width = surface.current_width)
    (hh : view.geo.height = surface.current_height) :
    commit_size_step view surface = (view, []) := by
  simp [commit_size_step, hw, hh]

/-- The damage the pending step records: one whole-view damage for the box it
produced when its guard holds, none otherwise. -/
theorem commit_pending_step_damage (view : wc_view) (surface : wlr_xdg_surface)
    (size : wlr_box) :
    (commit_pending_step view surface size).2 =
      (if 0 < view.pending_serial ∧ surface.configure_serial ≤ view.pending_serial then
        [damage_request.whole view.addr (commit_pending_step view surface size).1.geo]
       else []) ∧
    (commit_pending_step view surface size).1.geo.width = view.geo.width ∧
    (commit_pending_step view surface size).1.geo.height = view.geo.height := by
  by_cases hg : 0 < view.pending_serial ∧ surface.configure_serial ≤ view.pending_serial
  · obtain ⟨-, -, aw, ah, ad, -, -⟩ :=
      commit_pending_step_applied view surface size hg.1 hg.2
    rw [if_pos hg]
    exact ⟨ad, aw, ah⟩
  · have h : view.pending_serial = 0 ∨ view.pending_serial < surface.configure_serial := by
      omega
    rw [commit_pending_step_skipped view surface size h, if_neg hg]
    exact ⟨rfl, rfl, rfl⟩

/-- C4. Size-change damage: on a mapped view, when the committed width or height
differs from the stored one, the damage sink receives, right after the region
damage, a whole-view damage for the old box and one for the new box (same x and
y, committed width and height), in that order, and the stored size becomes the
committed one; when the size is unchanged neither is recorded and the stored
size stays.  In both cases the only later record is the single whole-view damage
of the pending step, present exactly when that step is applied. -/
theorem commit_size_change_damage (view : wc_view) (surface : wlr_xdg_surface)
    (hmapped : view.mapped = true) :
    (view.geo.width ≠ surface.current_width ∨ view.geo.height ≠ surface.current_height →
      (wc_xdg_surface_commit view surface).damage =
        damage_request.region view.addr surface.effective_damage ::
        damage_request.whole view.addr view.geo ::
        damage_request.whole view.addr
          ⟨view.geo.x, view.geo.y, surface.current_width, surface.current_height⟩ ::
        (if 0 < view.pending_serial ∧ surface.configure_serial ≤ view.pending_serial then
          [damage_request.whole view.addr (wc_xdg_surface_commit view surface).view.geo]
         else []) ∧
      (wc_xdg_surface_commit view surface).view.geo.width = surface.current_width ∧
      (wc_xdg_surface_commit view surface).view.geo.height = surface.current_height) ∧
    (view.geo.width = surface.current_width ∧ view.geo.height = surface.current_height →
      (wc_xdg_surface_commit view surface).damage =
        damage_request.region view.addr surface.effective_damage ::
        (if 0 < view.pending_serial ∧ surface.configure_serial ≤ view.pending_serial then
          [damage_request.whole view.addr (wc_xdg_surface_commit view surface).view.geo]
         else []) ∧
      (wc_xdg_surface_commit view surface).view.geo.width = view.geo.width ∧
      (wc_xdg_surface_commit view surface).view.geo.height = view.geo.height) := by
  obtain ⟨-, -, -, hs, -, -, ha⟩ := commit_size_step_frame view surface
  obtain ⟨sw, sh⟩ := commit_size_step_size view surface
  obtain ⟨pd, pw, ph⟩ :=
    commit_pending_step_damage (commit_size_step view surface).1 surface surface.geometry
  rw [hs, ha] at pd
  rw [commit_mapped view surface hmapped]
  constructor
  · intro hchg
    refine ⟨?_, by rw [pw, sw], by rw [ph, sh]⟩
    rw [commit_size_step_changed view surface hchg]
    simp only [pd, List.cons_append, List.nil_append]
  · rintro ⟨hw, hh⟩
    refine ⟨?_, by rw [pw, sw, hw], by rw [ph, sh, hh]⟩
    rw [commit_size_step_unchanged view surface hw hh] at pd ⊢
    simp only [pd, List.nil_append]

/-- Witness of C4: a view of size (300, 200) at (10, 20) commits as (300, 250);
the sink receives the region damage, then the old box, then the new box. -/
theorem commit_size_change_damage_witness :
    (wc_xdg_surface_commit
        (sample_view ⟨10, 20, 300, 200⟩ ⟨0, 0, 0, 0⟩ 0 true)
        (sample_surface ⟨0, 0, 300, 250⟩ 300 250 0)).damage =
      [damage_request.region 1 [⟨0, 0, 1, 1⟩],
       damage_request.whole 1 ⟨10, 20, 300, 200⟩,
       damage_request.whole 1 ⟨10, 20, 300, 250⟩] ∧
    (wc_xdg_surface_commit
        (sample_view ⟨10, 20, 300, 200⟩ ⟨0, 0, 0, 0⟩ 0 true)
        (sample_surface ⟨0, 0, 300, 250⟩ 300 250 0)).view.geo.height = 250 :=
  have h := (commit_size_change_damage
    (sample_view ⟨10, 20, 300, 200⟩ ⟨0, 0, 0, 0⟩ 0 true)
    (sample_surface ⟨0, 0, 300, 250⟩ 300 250 0) (by decide)).1 (by decide)
  ⟨h.1, h.2.2⟩

/-- C5, as stated, fails: the view at x = 0 has the pending box (100, 0, 400, 300)
with serial 5; the surface acknowledges serial 5, its geometry query reports
width 300 and its committed width is 320.  The commit moves x to 200 and stores
width 320, so the far edge is 520 and not 100 + 400 = 500. -/
theorem commit_far_edge_counterexample :
    (wc_xdg_surface_commit
        (sample_view ⟨0, 0, 400, 300⟩ ⟨100, 0, 400, 300⟩ 5 true)
        (sample_surface ⟨0, 0, 300, 300⟩ 320 300 5)).view.geo.x ≠
      (sample_view ⟨0, 0, 400, 300⟩ ⟨100, 0, 400, 300⟩ 5 true).geo.x ∧
    (wc_xdg_surface_commit
        (sample_view ⟨0, 0, 400, 300⟩ ⟨100, 0, 400, 300⟩ 5 true)
        (sample_surface ⟨0, 0, 300, 300⟩ 320 300 5)).view.geo.x +
      (wc_xdg_surface_commit
        (sample_view ⟨0, 0, 400, 300⟩ ⟨100, 0, 400, 300⟩ 5 true)
        (sample_surface ⟨0, 0, 300, 300⟩ 320 300 5)).view.geo.width = 520 ∧
    (sample_view ⟨0, 0, 400, 300⟩ ⟨100, 0, 400, 300⟩ 5 true).pending_geometry.x +
      (sample_view ⟨0, 0, 400, 300⟩ ⟨100, 0, 400, 300⟩ 5 true).pending_geometry.width =
        500 := by
  decide

/-- The position after a commit: anchored on an axis whose pending target
differs, when the view is mapped and the pending step applies; unchanged
otherwise. -/
theorem commit_position (view : wc_view) (surface : wlr_xdg_surface) :
    (wc_xdg_surface_commit view surface).view.geo.x =
      (if view.mapped = true ∧ 0 < view.pending_serial ∧
          surface.configure_serial ≤ view.pending_serial ∧
          view.pending_geometry.x ≠ view.geo.x then
        view.pending_geometry.x + view.pending_geometry.width - surface.geometry.width
       else view.geo.x) ∧
    (wc_xdg_surface_commit view surface).view.geo.y =
      (if view.mapped = true ∧ 0 < view.pending_serial ∧
          surface.configure_serial ≤ view.pending_serial ∧
          view.pending_geometry.y ≠ view.geo.y then
        view.pending_geometry.y + view.pending_geometry.height - surface.geometry.height
       else view.geo.y) := by
  by_cases hm : view.mapped = true
  · obtain ⟨hx, hy, hp, hs, -, -, -⟩ := commit_size_step_frame view surface
    rw [commit_mapped view surface hm]
    by_cases hg : 0 < view.pending_serial ∧ surface.configure_serial ≤ view.pending_serial
    · obtain ⟨ax, ay, -, -, -, -, -⟩ :=
        commit_pending_step_applied (commit_size_step view surface).1 surface
          surface.geometry (by rw [hs]; exact hg.1) (by rw [hs]; exact hg.2)
      simp only [hx, hy, hp] at ax ay
      simp only [ax, ay, hm, hg.1, hg.2, true_and]
    · have h : view.pending_serial = 0 ∨
          view.pending_serial < surface.configure_serial := by omega
      rw [commit_pending_step_skipped (commit_size_step view surface).1 surface
        surface.geometry (by rw [hs]; exact h)]
      have hn1 : ¬ (view.mapped = true ∧ 0 < view.pending_serial ∧
          surface.configure_serial ≤ view.pending_serial ∧
          view.pending_geometry.x ≠ view.geo.x) := fun h => hg ⟨h.2.1, h.2.2.1⟩
      have hn2 : ¬ (view.mapped = true ∧ 0 < view.pending_serial ∧
          surface.configure_serial ≤ view.pending_serial ∧
          view.pending_geometry.y ≠ view.geo.y) := fun h => hg ⟨h.2.1, h.2.2.1⟩
      rw [if_neg hn1, if_neg hn2]
      exact ⟨hx, hy⟩
  · have hm2 : view.mapped = false := by simpa using hm
    simp [wc_xdg_surface_commit, hm2]

/-- The size stored after a commit on a mapped view is the committed size. -/
theorem commit_size (view : wc_view) (surface : wlr_xdg_surface)
    (hmapped : view.mapped = true) :
    (wc_xdg_surface_commit view surface).view.geo.width = surface.current_width ∧
    (wc_xdg_surface_commit view surface).view.geo.height = surface.current_height := by
  obtain ⟨sw, sh⟩ := commit_size_step_size view surface
  obtain ⟨-, pw, ph⟩ :=
    commit_pending_step_damage (commit_size_step view surface).1 surface surface.geometry
  rw [commit_mapped view surface hmapped]
  exact ⟨by rw [pw, sw], by rw [ph, sh]⟩

/-- C5, amended. When a commit changes the position on an axis, the far edge
measured with the dimension the geometry query reports at this commit equals the
far edge of the pending geometry; it equals the far edge of the stored geometry
whenever the geometry query reports the same dimension as the committed surface
size. -/
theorem commit_far_edge (view : wc_view) (surface : wlr_xdg_surface) :
    ((wc_xdg_surface_commit view surface).view.geo.x ≠ view.geo.x →
      (wc_xdg_surface_commit view surface).view.geo.x + surface.geometry.width =
        view.pending_geometry.x + view.pending_geometry.width ∧
      (surface.geometry.width = surface.current_width →
        (wc_xdg_surface_commit view surface).view.geo.x +
            (wc_xdg_surface_commit view surface).view.geo.width =
          view.pending_geometry.x + view.pending_geometry.width)) ∧
    ((wc_xdg_surface_commit view surface).view.geo.y ≠ view.geo.y →
      (wc_xdg_surface_commit view surface).view.geo.y + surface.geometry.height =
        view.pending_geometry.y + view.pending_geometry.height ∧
      (surface.geometry.height = surface.current_height →
        (wc_xdg_surface_commit view surface).view.geo.y +
            (wc_xdg_surface_commit view surface).view.geo.height =
          view.pending_geometry.y + view.pending_geometry.height)) := by
  obtain ⟨px, py⟩ := commit_position view surface
  constructor
  · intro hchg
    by_cases hc : view.mapped = true ∧ 0 < view.pending_serial ∧
        surface.configure_serial ≤ view.pending_serial ∧
        view.pending_geometry.x ≠ view.geo.x
    · rw [if_pos hc] at px
      obtain ⟨cw, -⟩ := commit_size view surface hc.1
      refine ⟨by rw [px]; ring, fun heq => ?_⟩
      rw [px, cw, ← heq]; ring
    · rw [if_neg hc] at px
      exact absurd px hchg
  · intro hchg
    by_cases hc : view.mapped = true ∧ 0 < view.pending_serial ∧
        surface.configure_serial ≤ view.pending_serial ∧
        view.pending_geometry.y ≠ view.geo.y
    · rw [if_pos hc] at py
      obtain ⟨-, ch⟩ := commit_size view surface hc.1
      refine ⟨by rw [py]; ring, fun heq => ?_⟩
      rw [py, ch, ← heq]; ring
    · rw [if_neg hc] at py
      exact absurd py hchg

/-- Witness of C5 (amended): the commit of the counterexample, where the
geometry query reports width 300: 200 + 300 = 100 + 400. -/
theorem commit_far_edge_witness :
    (wc_xdg_surface_commit
        (sample_view ⟨0, 0, 400, 300⟩ ⟨100, 0, 400, 300⟩ 5 true)
        (sample_surface ⟨0, 0, 300, 300⟩ 320 300 5)).view.geo.x + 300 = 100 + 400 :=
  ((commit_far_edge (sample_view ⟨0, 0, 400, 300⟩ ⟨100, 0, 400, 300⟩ 5 true)
      (sample_surface ⟨0, 0, 300, 300⟩ 320 300 5)).1 (by decide)).1

/-- C6. Commit is a no-op while unmapped: the view (geometry, pending geometry,
pending serial, has-pending flag and every other field) is returned as it was
and nothing is sent to the damage sink or to the focus transfer. -/
theorem commit_unmapped_noop (view : wc_view) (surface : wlr_xdg_surface)
    (hunmapped : view.mapped = false) :
    (wc_xdg_surface_commit view surface).view = view ∧
    (wc_xdg_surface_commit view surface).view.geo = view.geo ∧
    (wc_xdg_surface_commit view surface).view.pending_geometry = view.pending_geometry ∧
    (wc_xdg_surface_commit view surface).view.pending_serial = view.pending_serial ∧
    (wc_xdg_surface_commit view surface).view.is_pending_serial =
      view.is_pending_serial ∧
    (wc_xdg_surface_commit view surface).damage = [] ∧
    (wc_xdg_surface_commit view surface).focus = [] := by
  simp [wc_xdg_surface_commit, hunmapped]

/-- Witness of C6: an unmapped view with a pending change whose serial is
acknowledged, committed with a different size. -/
theorem commit_unmapped_noop_witness :
    (wc_xdg_surface_commit
        (sample_view ⟨0, 0, 400, 300⟩ ⟨100, 0, 400, 300⟩ 5 false)
        (sample_surface ⟨0, 0, 300, 300⟩ 320 300 5)).view =
      sample_view ⟨0, 0, 400, 300⟩ ⟨100, 0, 400, 300⟩ 5 false ∧
    (wc_xdg_surface_commit
        (sample_view ⟨0, 0, 400, 300⟩ ⟨100, 0, 400, 300⟩ 5 false)
        (sample_surface ⟨0, 0, 300, 300⟩ 320 300 5)).damage = [] :=
  have h := commit_unmapped_noop
    (sample_view ⟨0, 0, 400, 300⟩ ⟨100, 0, 400, 300⟩ 5 false)
    (sample_surface ⟨0, 0, 300, 300⟩ 320 300 5) (by decide)
  ⟨h.1, h.2.2.2.2.2.1⟩

/-! ## Map and unmap -/

/-- Delivering a sequence of map and unmap signals that ends with `e` is
delivering `e` last. -/
theorem deliver_all_append (view : wc_view) (es : List map_event) (e : map_event) :
    deliver_all view (es ++ [e]) = map_event.deliver (deliver_all view es) e := by
  simp [deliver_all, List.foldl_append]

/-- C7. After any non-empty sequence of map and unmap signals delivered to a
view, from any starting state, the mapped flag is true if and only if the last
signal was a map; and the view `wc_xdg_new_surface` creates is unmapped. -/
theorem mapped_flag_is_last_transition (view : wc_view) (es : List map_event)
    (hne : es ≠ []) (server : wc_server) (addr : Nat) (xdg_surface : wlr_xdg_surface) :
    ((deliver_all view es).mapped = true ↔
      ∃ s, es.getLast hne = map_event.map s) ∧
    (new_view server addr xdg_surface).mapped = false := by
  refine ⟨?_, rfl⟩
  have hsplit := List.dropLast_append_getLast hne
  generalize es.getLast hne = last at hsplit
  rw [← hsplit, deliver_all_append]
  cases last with
  | map s => simp [map_event.deliver, wc_xdg_surface_map]
  | unmap => simp [map_event.deliver, wc_xdg_surface_unmap]

/-- Witness of C7: map, unmap, map leaves the view mapped. -/
theorem mapped_flag_is_last_transition_witness :
    (deliver_all (sample_view ⟨0, 0, 0, 0⟩ ⟨0, 0, 0, 0⟩ 0 false)
      [map_event.map (sample_surface ⟨0, 0, 300, 200⟩ 300 200 0), map_event.unmap,
       map_event.map (sample_surface ⟨5, 5, 300, 200⟩ 300 200 0)]).mapped = true :=
  (mapped_flag_is_last_transition (sample_view ⟨0, 0, 0, 0⟩ ⟨0, 0, 0, 0⟩ 0 false)
    [map_event.map (sample_surface ⟨0, 0, 300, 200⟩ 300 200 0), map_event.unmap,
     map_event.map (sample_surface ⟨5, 5, 300, 200⟩ 300 200 0)]
    (by simp) (wc_server_init 0 0 0) 1
    (sample_surface ⟨0, 0, 300, 200⟩ 300 200 0)).1.2
    ⟨sample_surface ⟨5, 5, 300, 200⟩ 300 200 0, rfl⟩

/-! ## Grab requests -/

/-- C8. Out-of-focus grab requests are ignored: when the surface of the
requesting view is not the seat's pointer-focused surface, request-move and
request-resize return the server state unchanged, so the cursor mode, the
grabbed view, the stored origin, the geometry snapshot, the resize edges and
every view keep their values. -/
theorem unfocused_request_ignored (server : wc_server) (view : wc_view)
    (xdg_surface : wlr_xdg_surface) (edges : Nat)
    (hfocus : server.focused_surface ≠ some (wc_view_surface view xdg_surface)) :
    wc_xdg_toplevel_request_move server view xdg_surface = server ∧
    wc_xdg_toplevel_request_resize server view xdg_surface edges = server ∧
    (wc_xdg_toplevel_request_move server view xdg_surface).cursor = server.cursor ∧
    (wc_xdg_toplevel_request_resize server view xdg_surface edges).cursor =
      server.cursor ∧
    (wc_xdg_toplevel_request_move server view xdg_surface).views = server.views ∧
    (wc_xdg_toplevel_request_resize server view xdg_surface edges).views =
      server.views := by
  have h : (some (wc_view_surface view xdg_surface) != server.focused_surface) = true := by
    simp only [bne_iff_ne, ne_eq]
    exact fun h => hfocus h.symm
  have hm : wc_xdg_toplevel_request_move server view xdg_surface = server := by
    simp only [wc_xdg_toplevel_request_move, h, if_true]
  have hr : wc_xdg_toplevel_request_resize server view xdg_surface edges = server := by
    simp only [wc_xdg_toplevel_request_resize, h, if_true]
  rw [hm, hr]
  exact ⟨rfl, rfl, rfl, rfl, rfl, rfl⟩

/-- Witness of C8: pointer focus is on surface 99 while the view of surface 20
asks for a move and for a resize. -/
theorem unfocused_request_ignored_witness :
    wc_xdg_toplevel_request_move (sample_server (some 99))
        (sample_view ⟨40, 50, 300, 200⟩ ⟨0, 0, 0, 0⟩ 0 true)
        (sample_surface ⟨40, 50, 300, 200⟩ 300 200 0) = sample_server (some 99) ∧
    wc_xdg_toplevel_request_resize (sample_server (some 99))
        (sample_view ⟨40, 50, 300, 200⟩ ⟨0, 0, 0, 0⟩ 0 true)
        (sample_surface ⟨40, 50, 300, 200⟩ 300 200 0) 5 = sample_server (some 99) :=
  have h := unfocused_request_ignored (sample_server (some 99))
    (sample_view ⟨40, 50, 300, 200⟩ ⟨0, 0, 0, 0⟩ 0 true)
    (sample_surface ⟨40, 50, 300, 200⟩ 300 200 0) 5 (by decide)
  ⟨h.1, h.2.1⟩

/-! ## Destroy -/

/-- The views and listeners `wc_xdg_surface_destroy` leaves: the views at another
address and the listeners contained in another view; the rest of the server is
untouched. -/
theorem destroy_eq (server : wc_server) (view : Nat) :
    wc_xdg_surface_destroy server view =
      { server with
        views := server.views.filter (fun v => v.addr != view)
        listeners := server.listeners.filter (fun l => l.view != view) } := by
  simp only [wc_xdg_surface_destroy, List.filter_filter]
  congr 1
  apply List.filter_congr
  intro l _
  simp only [bne]
  generalize (l.view == view) = b
  cases l.signal <;> cases b <;> rfl

/-- C9. Destroy removes the view: afterwards no view of the collection has the
destroyed view's address, the collection is the previous one without that view,
in the same relative order, and no listener of the view is linked any more, so
no signal of any surface reaches a handler of this view; the listeners of the
other views stay linked, and a view that was in the collection makes the
collection shorter. -/
theorem destroy_removes_view (server : wc_server) (view : Nat) :
    (∀ v ∈ (wc_xdg_surface_destroy server view).views, v.addr ≠ view) ∧
    (wc_xdg_surface_destroy server view).views =
      server.views.filter (fun v => decide (v.addr ≠ view)) ∧
    (wc_xdg_surface_destroy server view).views.Sublist server.views ∧
    (∀ v ∈ server.views, v.addr ≠ view → v ∈ (wc_xdg_surface_destroy server view).views) ∧
    (view_at (wc_xdg_surface_destroy server view) view = none) ∧
    (∀ l ∈ (wc_xdg_surface_destroy server view).listeners, l.view ≠ view) ∧
    (∀ sig source, ∀ l ∈ listeners_of (wc_xdg_surface_destroy server view) sig source,
      l.view ≠ view) ∧
    (∀ l ∈ server.listeners, l.view ≠ view →
      l ∈ (wc_xdg_surface_destroy server view).listeners) ∧
    ((∃ v ∈ server.views, v.addr = view) →
      (wc_xdg_surface_destroy server view).views.length < server.views.length) := by
  rw [destroy_eq]
  have hl : ∀ l ∈ server.listeners.filter (fun l => l.view != view), l.view ≠ view := by
    intro l hl
    simpa using (List.mem_filter.mp hl).2
  refine ⟨?_, ?_, ?_, ?_, ?_, hl, ?_, ?_, ?_⟩
  · intro v hv
    simpa using (List.mem_filter.mp hv).2
  · apply List.filter_congr
    intro v _
    by_cases h : v.addr = view <;> simp [h]
  · exact List.filter_sublist _
  · intro v hv hne
    exact List.mem_filter.mpr ⟨hv, by simpa using hne⟩
  · simp only [view_at, List.find?_eq_none]
    intro v hv
    have := (List.mem_filter.mp hv).2
    simpa using this
  · intro sig source l hmem
    exact hl l (List.mem_filter.mp hmem).1
  · intro l hmem hne
    exact List.mem_filter.mpr ⟨hmem, by simpa using hne⟩
  · rintro ⟨v, hv, rfl⟩
    apply List.length_filter_lt_length_iff_exists.mpr
    exact ⟨v, hv, by simp⟩

/-- Witness of C9: destroying the only view of the sample server empties the
collection and the listener list. -/
theorem destroy_removes_view_witness :
    (wc_xdg_surface_destroy (sample_server (some 20)) 1).views.length <
      (sample_server (some 20)).views.length :=
  (destroy_removes_view (sample_server (some 20)) 1).2.2.2.2.2.2.2.2 (by decide)

/-- C10 fails on the code: surface 10 is announced and mapped, gets pointer
focus, requests a move and is destroyed.  Before the destroy the grab references
the view at address 1, which is in the collection; after it the collection and
the listener list are empty, and the cursor is still in move mode with its grab
referencing address 1. -/
theorem destroy_leaves_grab_reference :
    (run (sample_server (some 20))
      [wc_event.signal wc_signal.request_move
        (sample_surface ⟨40, 50, 300, 200⟩ 300 200 0) 0]).cursor.grabbed.view = some 1 ∧
    (run (sample_server (some 20))
      [wc_event.signal wc_signal.request_move
        (sample_surface ⟨40, 50, 300, 200⟩ 300 200 0) 0]).views.map wc_view.addr = [1] ∧
    (run (sample_server (some 20))
      [wc_event.signal wc_signal.request_move
        (sample_surface ⟨40, 50, 300, 200⟩ 300 200 0) 0,
       wc_event.signal wc_signal.destroy
        (sample_surface ⟨40, 50, 300, 200⟩ 300 200 0) 0]).views = [] ∧
    (run (sample_server (some 20))
      [wc_event.signal wc_signal.request_move
        (sample_surface ⟨40, 50, 300, 200⟩ 300 200 0) 0,
       wc_event.signal wc_signal.destroy
        (sample_surface ⟨40, 50, 300, 200⟩ 300 200 0) 0]).listeners = [] ∧
    (run (sample_server (some 20))
      [wc_event.signal wc_signal.request_move
        (sample_surface ⟨40, 50, 300, 200⟩ 300 200 0) 0,
       wc_event.signal wc_signal.destroy
        (sample_surface ⟨40, 50, 300, 200⟩ 300 200 0) 0]).cursor.grabbed.view = some 1 ∧
    (run (sample_server (some 20))
      [wc_event.signal wc_signal.request_move
        (sample_surface ⟨40, 50, 300, 200⟩ 300 200 0) 0,
       wc_event.signal wc_signal.destroy
        (sample_surface ⟨40, 50, 300, 200⟩ 300 200 0) 0]).cursor.cursor_mode =
      wc_cursor_mode.WC_CURSOR_MOVE := by
  decide

/-! ## Pending serial -/

/-- C11, as stated, fails: a mapped view with pending serial 5 whose surface
acknowledges serial 5 has pending serial 0 after the commit. -/
theorem pending_serial_monotone_counterexample :
    (wc_xdg_surface_commit
        (sample_view ⟨0, 0, 300, 300⟩ ⟨100, 0, 400, 300⟩ 5 true)
        (sample_surface ⟨0, 0, 300, 300⟩ 300 300 5)).view.pending_serial <
      (sample_view ⟨0, 0, 300, 300⟩ ⟨100, 0, 400, 300⟩ 5 true).pending_serial := by
  decide

/-- The pending serial after a commit: reset to 0 when the view is mapped, the
serial is positive and the surface's configure serial equals it; unchanged
otherwise. -/
theorem commit_pending_serial (view : wc_view) (surface : wlr_xdg_surface) :
    (wc_xdg_surface_commit view surface).view.pending_serial =
      (if view.mapped = true ∧ 0 < view.pending_serial ∧
          surface.configure_serial = view.pending_serial then 0
       else view.pending_serial) ∧
    (wc_xdg_surface_commit view surface).view.is_pending_serial =
      (if view.mapped = true ∧ 0 < view.pending_serial ∧
          surface.configure_serial = view.pending_serial then false
       else view.is_pending_serial) := by
  by_cases hm : view.mapped = true
  · obtain ⟨-, -, -, hs, hf, -, -⟩ := commit_size_step_frame view surface
    rw [commit_mapped view surface hm]
    by_cases hg : 0 < view.pending_serial ∧ surface.configure_serial ≤ view.pending_serial
    · obtain ⟨-, -, -, -, -, as, af⟩ :=
        commit_pending_step_applied (commit_size_step view surface).1 surface
          surface.geometry (by rw [hs]; exact hg.1) (by rw [hs]; exact hg.2)
      simp only [hs, hf] at as af
      simp only [as, af, hm, hg.1, true_and]
      by_cases he : view.pending_serial = surface.configure_serial
      · simp [he]
      · have he2 : ¬ surface.configure_serial = view.pending_serial := fun h => he h.symm
        simp [he, he2]
    · have h : view.pending_serial = 0 ∨
          view.pending_serial < surface.configure_serial := by omega
      rw [commit_pending_step_skipped (commit_size_step view surface).1 surface
        surface.geometry (by rw [hs]; exact h)]
      have hn : ¬ (view.mapped = true ∧ 0 < view.pending_serial ∧
          surface.configure_serial = view.pending_serial) :=
        fun h => hg ⟨h.2.1, h.2.2.le⟩
      rw [if_neg hn, if_neg hn]
      exact ⟨hs, hf⟩
  · have hm2 : view.mapped = false := by simpa using hm
    simp [wc_xdg_surface_commit, hm2]

/-- C11, amended. Map, unmap, request-move and request-resize leave the pending
serial of every view as it was; a commit leaves it as it was or resets it to 0,
and it lowers it exactly when the view is mapped, the serial is positive and the
surface's configure serial equals it. -/
theorem pending_serial_after_event (server : wc_server) (view : wc_view)
    (xdg_surface : wlr_xdg_surface) (edges : Nat) :
    (wc_xdg_surface_map view xdg_surface).view.pending_serial = view.pending_serial ∧
    (wc_xdg_surface_unmap view).view.pending_serial = view.pending_serial ∧
    (wc_xdg_toplevel_request_move server view xdg_surface).views = server.views ∧
    (wc_xdg_toplevel_request_resize server view xdg_surface edges).views = server.views ∧
    ((wc_xdg_surface_commit view xdg_surface).view.pending_serial = view.pending_serial ∨
      (wc_xdg_surface_commit view xdg_surface).view.pending_serial = 0) ∧
    ((wc_xdg_surface_commit view xdg_surface).view.pending_serial < view.pending_serial ↔
      view.mapped = true ∧ 0 < view.pending_serial ∧
        xdg_surface.configure_serial = view.pending_serial) := by
  obtain ⟨hc, -⟩ := commit_pending_serial view xdg_surface
  refine ⟨rfl, rfl, ?_, ?_, ?_, ?_⟩
  · simp only [wc_xdg_toplevel_request_move]
    split_ifs <;> rfl
  · simp only [wc_xdg_toplevel_request_resize]
    split_ifs <;> rfl
  · rw [hc]
    split_ifs
    · exact Or.inr rfl
    · exact Or.inl rfl
  · rw [hc]
    split_ifs with h
    · exact ⟨fun _ => h, fun _ => h.2.1⟩
    · exact ⟨fun hlt => absurd hlt (lt_irrefl _), fun h2 => absurd h2 h⟩

/-- Witness of C11 (amended): the commit that acknowledges serial 5 exactly
lowers the pending serial; the commit that acknowledges serial 3 does not. -/
theorem pending_serial_after_event_witness :
    (wc_xdg_surface_commit
        (sample_view ⟨0, 0, 300, 300⟩ ⟨100, 0, 400, 300⟩ 5 true)
        (sample_surface ⟨0, 0, 300, 300⟩ 300 300 5)).view.pending_serial < 5 ∧
    ¬ (wc_xdg_surface_commit
        (sample_view ⟨0, 0, 300, 300⟩ ⟨100, 0, 400, 300⟩ 5 true)
        (sample_surface ⟨0, 0, 300, 300⟩ 300 300 3)).view.pending_serial < 5 :=
  ⟨(pending_serial_after_event (sample_server none)
      (sample_view ⟨0, 0, 300, 300⟩ ⟨100, 0, 400, 300⟩ 5 true)
      (sample_surface ⟨0, 0, 300, 300⟩ 300 300 5) 0).2.2.2.2.2.2 (by decide),
   fun h => absurd ((pending_serial_after_event (sample_server none)
      (sample_view ⟨0, 0, 300, 300⟩ ⟨100, 0, 400, 300⟩ 5 true)
      (sample_surface ⟨0, 0, 300, 300⟩ 300 300 3) 0).2.2.2.2.2.1 h).2.2 (by decide)⟩

/-! ## Grab snapshots -/

/-- Request-move from the view that holds pointer focus: only the cursor is
written, with the move mode, the view, the pointer's offset from the view's
corner, and a box made of the view's x and y and of the width and height the
geometry query reports. -/
theorem request_move_focused (server : wc_server) (view : wc_view)
    (xdg_surface : wlr_xdg_surface)
    (hfocus : server.focused_surface = some (wc_view_surface view xdg_surface)) :
    wc_xdg_toplevel_request_move server view xdg_surface =
      { server with
        cursor :=
          { x := server.cursor.x
            y := server.cursor.y
            cursor_mode := wc_cursor_mode.WC_CURSOR_MOVE
            grabbed :=
              { view := some view.addr
                original_x := server.cursor.x - view.geo.x
                original_y := server.cursor.y - view.geo.y
                original_view_geo :=
                  ⟨view.geo.x, view.geo.y, xdg_surface.geometry.width,
                    xdg_surface.geometry.height⟩
                resize_edges := server.cursor.grabbed.resize_edges } } } := by
  have h : (some (wc_view_surface view xdg_surface) != server.focused_surface) = false := by
    rw [hfocus]; simp
  simp only [wc_xdg_toplevel_request_move, h]
  rfl

/-- Request-resize from the view that holds pointer focus: only the cursor is
written, with the resize mode, the view, the pointer's position, the edges of
the request, and a box made of the view's x and y and of the width and height
the geometry query reports. -/
theorem request_resize_focused (server : wc_server) (view : wc_view)
    (xdg_surface : wlr_xdg_surface) (edges : Nat)
    (hfocus : server.focused_surface = some (wc_view_surface view xdg_surface)) :
    wc_xdg_toplevel_request_resize server view xdg_surface edges =
      { server with
        cursor :=
          { x := server.cursor.x
            y := server.cursor.y
            cursor_mode := wc_cursor_mode.WC_CURSOR_RESIZE
            grabbed :=
              { view := some view.addr
                original_x := server.cursor.x
                original_y := server.cursor.y
                original_view_geo :=
                  ⟨view.geo.x, view.geo.y, xdg_surface.geometry.width,
                    xdg_surface.geometry.height⟩
                resize_edges := edges } } } := by
  have h : (some (wc_view_surface view xdg_surface) != server.focused_surface) = false := by
    rw [hfocus]; simp
  simp only [wc_xdg_toplevel_request_resize, h]
  rfl

/-- C12, as stated, fails: the view of the sample server is mapped with the box
(40, 50, 300, 200); its surface then commits the size 320 x 220 while the
geometry query still reports 300 x 200, and requests a move.  The view's
geometry is (40, 50, 320, 220); the grab's snapshot is (40, 50, 300, 200). -/
theorem request_move_snapshot_counterexample :
    (run (sample_server (some 20))
      [wc_event.signal wc_signal.commit (sample_surface ⟨40, 50, 300, 200⟩ 320 220 0) 0,
       wc_event.signal wc_signal.request_move
        (sample_surface ⟨40, 50, 300, 200⟩ 320 220 0) 0]).views.map wc_view.geo =
      [⟨40, 50, 320, 220⟩] ∧
    (run (sample_server (some 20))
      [wc_event.signal wc_signal.commit (sample_surface ⟨40, 50, 300, 200⟩ 320 220 0) 0,
       wc_event.signal wc_signal.request_move
        (sample_surface ⟨40, 50, 300, 200⟩ 320 220 0) 0]).cursor.grabbed.view = some 1 ∧
    (run (sample_server (some 20))
      [wc_event.signal wc_signal.commit (sample_surface ⟨40, 50, 300, 200⟩ 320 220 0) 0,
       wc_event.signal wc_signal.request_move
        (sample_surface ⟨40, 50, 300, 200⟩ 320 220 0) 0]).cursor.grabbed.original_view_geo =
      ⟨40, 50, 300, 200⟩ := by
  decide

/-- C12, amended. After a request-move issued by the view that holds pointer
focus, the cursor mode is Move, the grabbed view is this view, the stored origin
is the pointer's offset from the view's top-left corner, and the snapshot has
the view's current x and y and the width and height the geometry query reports
at the request; it is the view's current geometry whenever that query reports
the view's stored width and height. -/
theorem request_move_snapshot (server : wc_server) (view : wc_view)
    (xdg_surface : wlr_xdg_surface)
    (hfocus : server.focused_surface = some (wc_view_surface view xdg_surface)) :
    (wc_xdg_toplevel_request_move server view xdg_surface).cursor.cursor_mode =
      wc_cursor_mode.WC_CURSOR_MOVE ∧
    (wc_xdg_toplevel_request_move server view xdg_surface).cursor.grabbed.view =
      some view.addr ∧
    (wc_xdg_toplevel_request_move server view xdg_surface).cursor.grabbed.original_x =
      server.cursor.x - view.geo.x ∧
    (wc_xdg_toplevel_request_move server view xdg_surface).cursor.grabbed.original_y =
      server.cursor.y - view.geo.y ∧
    (wc_xdg_toplevel_request_move server view xdg_surface).cursor.grabbed.original_view_geo =
      ⟨view.geo.x, view.geo.y, xdg_surface.geometry.width, xdg_surface.geometry.height⟩ ∧
    (xdg_surface.geometry.width = view.geo.width →
      xdg_surface.geometry.height = view.geo.height →
      (wc_xdg_toplevel_request_move server view xdg_surface).cursor.grabbed.original_view_geo =
        view.geo) := by
  rw [request_move_focused server view xdg_surface hfocus]
  refine ⟨rfl, rfl, rfl, rfl, rfl, ?_⟩
  intro hw hh
  simp only [hw, hh]

/-- Witness of C12 (amended): the focused view of the sample server, at
(40, 50) with the pointer at (150, 160), requests a move: the stored origin is
(110, 110). -/
theorem request_move_snapshot_witness :
    (wc_xdg_toplevel_request_move (sample_server (some 20))
        (sample_view ⟨40, 50, 300, 200⟩ ⟨0, 0, 0, 0⟩ 0 true)
        (sample_surface ⟨40, 50, 300, 200⟩ 300 200 0)).cursor.grabbed.original_x = 110 ∧
    (wc_xdg_toplevel_request_move (sample_server (some 20))
        (sample_view ⟨40, 50, 300, 200⟩ ⟨0, 0, 0, 0⟩ 0 true)
        (sample_surface ⟨40, 50, 300, 200⟩ 300 200 0)).cursor.grabbed.original_view_geo =
      ⟨40, 50, 300, 200⟩ :=
  have h := request_move_snapshot (sample_server (some 20))
    (sample_view ⟨40, 50, 300, 200⟩ ⟨0, 0, 0, 0⟩ 0 true)
    (sample_surface ⟨40, 50, 300, 200⟩ 300 200 0) (by decide)
  ⟨h.2.2.1, h.2.2.2.2.2 rfl rfl⟩

/-- C13, as stated, fails: the view of the sample server is mapped with the box
(40, 50, 300, 200); its surface then commits the size 300 x 260 while the
geometry query still reports 300 x 200, and requests a resize of edges 5.  The
view's geometry is (40, 50, 300, 260); the grab's snapshot is
(40, 50, 300, 200). -/
theorem request_resize_snapshot_counterexample :
    (run (sample_server (some 20))
      [wc_event.signal wc_signal.commit (sample_surface ⟨40, 50, 300, 200⟩ 300 260 0) 0,
       wc_event.signal wc_signal.request_resize
        (sample_surface ⟨40, 50, 300, 200⟩ 300 260 0) 5]).views.map wc_view.geo =
      [⟨40, 50, 300, 260⟩] ∧
    (run (sample_server (some 20))
      [wc_event.signal wc_signal.commit (sample_surface ⟨40, 50, 300, 200⟩ 300 260 0) 0,
       wc_event.signal wc_signal.request_resize
        (sample_surface ⟨40, 50, 300, 200⟩ 300 260 0) 5]).cursor.grabbed.view = some 1 ∧
    (run (sample_server (some 20))
      [wc_event.signal wc_signal.commit (sample_surface ⟨40, 50, 300, 200⟩ 300 260 0) 0,
       wc_event.signal wc_signal.request_resize
        (sample_surface ⟨40, 50, 300, 200⟩ 300 260 0) 5]).cursor.grabbed.original_view_geo =
      ⟨40, 50, 300, 200⟩ := by
  decide

/-- C13, amended. After a request-resize issued by the view that holds pointer
focus, the cursor mode is Resize, the grabbed view is this view, the stored
origin is the pointer's absolute position, the resize edges are those of the
request, and the snapshot has the view's current x and y and the width and
height the geometry query reports at the request; it is the view's current
geometry whenever that query reports the view's stored width and height. -/
theorem request_resize_snapshot (server : wc_server) (view : wc_view)
    (xdg_surface : wlr_xdg_surface) (edges : Nat)
    (hfocus : server.focused_surface = some (wc_view_surface view xdg_surface)) :
    (wc_xdg_toplevel_request_resize server view xdg_surface edges).cursor.cursor_mode =
      wc_cursor_mode.WC_CURSOR_RESIZE ∧
    (wc_xdg_toplevel_request_resize server view xdg_surface edges).cursor.grabbed.view =
      some view.addr ∧
    (wc_xdg_toplevel_request_resize server view xdg_surface edges).cursor.grabbed.original_x =
      server.cursor.x ∧
    (wc_xdg_toplevel_request_resize server view xdg_surface edges).cursor.grabbed.original_y =
      server.cursor.y ∧
    (wc_xdg_toplevel_request_resize server view xdg_surface edges).cursor.grabbed.resize_edges =
      edges ∧
    (wc_xdg_toplevel_request_resize server view xdg_surface
        edges).cursor.grabbed.original_view_geo =
      ⟨view.geo.x, view.geo.y, xdg_surface.geometry.width, xdg_surface.geometry.height⟩ ∧
    (xdg_surface.geometry.width = view.geo.width →
      xdg_surface.geometry.height = view.geo.height →
      (wc_xdg_toplevel_request_resize server view xdg_surface
          edges).cursor.grabbed.original_view_geo = view.geo) := by
  rw [request_resize_focused server view xdg_surface edges hfocus]
  refine ⟨rfl, rfl, rfl, rfl, rfl, rfl, ?_⟩
  intro hw hh
  simp only [hw, hh]

/-- Witness of C13 (amended): the focused view of the sample server requests a
resize of edges 5 with the pointer at (150, 160). -/
theorem request_resize_snapshot_witness :
    (wc_xdg_toplevel_request_resize (sample_server (some 20))
        (sample_view ⟨40, 50, 300, 200⟩ ⟨0, 0, 0, 0⟩ 0 true)
        (sample_surface ⟨40, 50, 300, 200⟩ 300 200 0) 5).cursor.grabbed.original_x = 150 ∧
    (wc_xdg_toplevel_request_resize (sample_server (some 20))
        (sample_view ⟨40, 50, 300, 200⟩ ⟨0, 0, 0, 0⟩ 0 true)
        (sample_surface ⟨40, 50, 300, 200⟩ 300 200 0) 5).cursor.grabbed.resize_edges = 5 :=
  have h := request_resize_snapshot (sample_server (some 20))
    (sample_view ⟨40, 50, 300, 200⟩ ⟨0, 0, 0, 0⟩ 0 true)
    (sample_surface ⟨40, 50, 300, 200⟩ 300 200 0) 5 (by decide)
  ⟨h.2.2.1, h.2.2.2.2.1⟩

/-! ## New surface -/

/-- C14, as stated, fails: the sample server holds the view at address 1; after
the notification for the top-level surface 11, whose view is allocated at
address 2, the collection lists address 2 first and address 1 after it. -/
theorem new_surface_counterexample :
    (sample_server none).views.map wc_view.addr = [1] ∧
    (wc_xdg_new_surface (sample_server none) 2
      (sample_surface_with 11 21
        wlr_xdg_surface_role.WLR_XDG_SURFACE_ROLE_TOPLEVEL)).views.map wc_view.addr =
      [2, 1] := by
  decide

/-- C14, amended. A notification for a surface whose role is not top-level
leaves the server, and so the view collection, unchanged.  A notification for a
top-level surface adds exactly one view, which is unmapped, has pending serial 0
and has-pending flag false, references the notifying surface and the server,
and is linked at the front of the collection, before all existing views, whose
relative order is preserved; its six listeners are linked after the existing
ones. -/
theorem new_surface_effect (server : wc_server) (addr : Nat)
    (xdg_surface : wlr_xdg_surface) :
    (xdg_surface.role ≠ wlr_xdg_surface_role.WLR_XDG_SURFACE_ROLE_TOPLEVEL →
      wc_xdg_new_surface server addr xdg_surface = server) ∧
    (xdg_surface.role = wlr_xdg_surface_role.WLR_XDG_SURFACE_ROLE_TOPLEVEL →
      (∃ v : wc_view,
        (wc_xdg_new_surface server addr xdg_surface).views = v :: server.views ∧
        v.addr = addr ∧ v.mapped = false ∧ v.pending_serial = 0 ∧
        v.is_pending_serial = false ∧ v.xdg_surface = xdg_surface.handle ∧
        v.server = server.addr) ∧
      (wc_xdg_new_surface server addr xdg_surface).views.length =
        server.views.length + 1 ∧
      (wc_xdg_new_surface server addr xdg_surface).listeners =
        server.listeners ++
          [⟨wc_signal.map, xdg_surface.handle, addr⟩,
           ⟨wc_signal.unmap, xdg_surface.handle, addr⟩,
           ⟨wc_signal.commit, xdg_surface.handle, addr⟩,
           ⟨wc_signal.destroy, xdg_surface.handle, addr⟩,
           ⟨wc_signal.request_move, xdg_surface.handle, addr⟩,
           ⟨wc_signal.request_resize, xdg_surface.handle, addr⟩]) := by
  constructor
  · intro h
    simp [wc_xdg_new_surface, h]
  · intro h
    refine ⟨⟨new_view server addr xdg_surface, ?_, rfl, rfl, rfl, rfl, rfl, rfl⟩, ?_, ?_⟩
    · simp [wc_xdg_new_surface, h]
    · simp [wc_xdg_new_surface, h]
    · simp [wc_xdg_new_surface, h, new_view]

/-- Witness of C14 (amended): a popup surface changes nothing; a top-level
surface makes the collection one longer. -/
theorem new_surface_effect_witness :
    wc_xdg_new_surface (sample_server none) 2
        (sample_surface_with 11 21 wlr_xdg_surface_role.WLR_XDG_SURFACE_ROLE_POPUP) =
      sample_server none ∧
    (wc_xdg_new_surface (sample_server none) 2
        (sample_surface_with 11 21
          wlr_xdg_surface_role.WLR_XDG_SURFACE_ROLE_TOPLEVEL)).views.length =
      (sample_server none).views.length + 1 :=
  ⟨(new_surface_effect (sample_server none) 2
      (sample_surface_with 11 21 wlr_xdg_surface_role.WLR_XDG_SURFACE_ROLE_POPUP)).1
      (by decide),
   ((new_surface_effect (sample_server none) 2
      (sample_surface_with 11 21 wlr_xdg_surface_role.WLR_XDG_SURFACE_ROLE_TOPLEVEL)).2
      (by decide)).2.1⟩

/-! ## The GLib event source -/

/-- C15. Teardown idempotence: one call of `remove_dbus_from_glib` hands each
attached source to `g_source_destroy` exactly once (session first) and leaves
both slots absent; a second call destroys nothing and yields the state the first
call produced; a call with neither source attached changes nothing. -/
theorem remove_dbus_idempotent (s : dbus_sources) :
    (remove_dbus_from_glib s).session_source = none ∧
    (remove_dbus_from_glib s).system_source = none ∧
    (remove_dbus_from_glib s).destroyed =
      s.destroyed ++ s.session_source.toList ++ s.system_source.toList ∧
    remove_dbus_from_glib (remove_dbus_from_glib s) = remove_dbus_from_glib s ∧
    (remove_dbus_from_glib (remove_dbus_from_glib s)).destroyed =
      (remove_dbus_from_glib s).destroyed ∧
    (s.session_source = none → s.system_source = none → remove_dbus_from_glib s = s) := by
  obtain ⟨a, b, d⟩ := s
  cases a <;> cases b <;> simp [remove_dbus_from_glib]

/-- Witness of C15: with only the system source attached, one call destroys it
once; with none attached the state is returned as it was. -/
theorem remove_dbus_idempotent_witness :
    (remove_dbus_from_glib ⟨none, some 7, []⟩).destroyed = [7] ∧
    remove_dbus_from_glib ⟨none, none, [3]⟩ = ⟨none, none, [3]⟩ :=
  ⟨(remove_dbus_idempotent ⟨none, some 7, []⟩).2.2.1,
   (remove_dbus_idempotent ⟨none, none, [3]⟩).2.2.2.2.2 rfl rfl⟩

/-- C16. Display dispatch: every dispatch performs exactly one round-trip, on the
stored display, as its first call.  When the round-trip returns -1 the process
exits and the refresh hook is not invoked; otherwise the refresh hook is invoked
exactly once, with the stored compositor-state handle, and the dispatch returns
`G_SOURCE_CONTINUE`. -/
theorem interface_dispatch_outcome (interface_source : InterfaceEventSource)
    (roundtrip : Int) :
    ((interface_dispatch interface_source roundtrip).calls.filter
      (fun c => match c with
        | glib_call.wl_display_roundtrip _ => true
        | _ => false)) = [glib_call.wl_display_roundtrip interface_source.display] ∧
    (roundtrip = -1 →
      interface_dispatch interface_source roundtrip =
        { calls := [glib_call.wl_display_roundtrip interface_source.display,
                    glib_call.exit 0]
          returned := none }) ∧
    (roundtrip ≠ -1 →
      interface_dispatch interface_source roundtrip =
        { calls := [glib_call.wl_display_roundtrip interface_source.display,
                    glib_call.awesome_refresh interface_source.wayland_state]
          returned := some G_SOURCE_CONTINUE }) ∧
    G_SOURCE_CONTINUE = true := by
  by_cases h : roundtrip = -1
  · simp [interface_dispatch, h, G_SOURCE_CONTINUE]
  · simp [interface_dispatch, h, G_SOURCE_CONTINUE]

/-- Witness of C16: a broken connection, and a round-trip that dispatched three
events. -/
theorem interface_dispatch_outcome_witness :
    interface_dispatch ⟨1, 2, 3⟩ (-1) =
      { calls := [glib_call.wl_display_roundtrip 1, glib_call.exit 0]
        returned := none } ∧
    interface_dispatch ⟨1, 2, 3⟩ 3 =
      { calls := [glib_call.wl_display_roundtrip 1, glib_call.awesome_refresh 2]
        returned := some G_SOURCE_CONTINUE } :=
  ⟨(interface_dispatch_outcome ⟨1, 2, 3⟩ (-1)).2.1 rfl,
   (interface_dispatch_outcome ⟨1, 2, 3⟩ 3).2.2.1 (by decide)⟩

/-- C17, as stated, fails: for the observed condition `G_IO_NVAL` (the
descriptor is not open) none of the registered interest bits is present, and
`interface_check` reports ready. -/
theorem interface_check_counterexample :
    G_IO_NVAL &&& display_fd_events = 0 ∧
    interface_check ⟨1, 2, 3⟩ G_IO_NVAL = true := by
  decide

/-- C17, amended. `interface_check` reports ready if and only if the observed
condition is not zero, whatever bits it is made of; in particular it reports
ready whenever a registered interest bit (readable, error, hangup) is present,
and it reports not ready for the empty condition. -/
theorem interface_check_ready (interface_source : InterfaceEventSource)
    (condition : Nat) :
    (interface_check interface_source condition = true ↔ condition ≠ 0) ∧
    (condition &&& display_fd_events ≠ 0 →
      interface_check interface_source condition = true) ∧
    interface_check interface_source 0 = false := by
  refine ⟨?_, ?_, ?_⟩
  · simp [interface_check]
  · intro h
    have hc : condition ≠ 0 := by
      rintro rfl
      exact h (Nat.zero_and _)
    simp [interface_check, hc]
  · simp [interface_check]

/-- Witness of C17 (amended): readable and hangup observed together. -/
theorem interface_check_ready_witness :
    interface_check ⟨1, 2, 3⟩ (G_IO_IN ||| G_IO_HUP) = true :=
  (interface_check_ready ⟨1, 2, 3⟩ (G_IO_IN ||| G_IO_HUP)).2.1 (by decide)

/-! ## Map side effects and frame properties -/

/-- C18. Map side effects: after `wc_xdg_surface_map` the view is mapped, its
stored geometry is the box the geometry query returned, in all four components,
focus transfer was requested exactly once, for this view, and exactly one
whole-view damage was recorded, for the newly assigned box; the pending
geometry, the pending serial and the has-pending flag are untouched. -/
theorem map_side_effects (view : wc_view) (xdg_surface : wlr_xdg_surface) :
    (wc_xdg_surface_map view xdg_surface).view.mapped = true ∧
    (wc_xdg_surface_map view xdg_surface).view.geo = xdg_surface.geometry ∧
    (wc_xdg_surface_map view xdg_surface).view.geo.x = xdg_surface.geometry.x ∧
    (wc_xdg_surface_map view xdg_surface).view.geo.y = xdg_surface.geometry.y ∧
    (wc_xdg_surface_map view xdg_surface).view.geo.width = xdg_surface.geometry.width ∧
    (wc_xdg_surface_map view xdg_surface).view.geo.height = xdg_surface.geometry.height ∧
    (wc_xdg_surface_map view xdg_surface).focus = [view.addr] ∧
    (wc_xdg_surface_map view xdg_surface).damage =
      [damage_request.whole view.addr xdg_surface.geometry] ∧
    (wc_xdg_surface_map view xdg_surface).view.addr = view.addr ∧
    (wc_xdg_surface_map view xdg_surface).view.pending_geometry = view.pending_geometry ∧
    (wc_xdg_surface_map view xdg_surface).view.pending_serial = view.pending_serial ∧
    (wc_xdg_surface_map view xdg_surface).view.is_pending_serial =
      view.is_pending_serial := by
  simp [wc_xdg_surface_map, wc_view_damage_whole]

/-- C19. Commit without a pending change never moves the view: when the pending
serial is 0, the x and y of the view after the commit are those before, and the
pending serial and the has-pending flag are unchanged, whatever the committed
size, the pending geometry and the configure serial are. -/
theorem commit_without_pending (view : wc_view) (xdg_surface : wlr_xdg_surface)
    (hnone : view.pending_serial = 0) :
    (wc_xdg_surface_commit view xdg_surface).view.geo.x = view.geo.x ∧
    (wc_xdg_surface_commit view xdg_surface).view.geo.y = view.geo.y ∧
    (wc_xdg_surface_commit view xdg_surface).view.pending_serial = view.pending_serial ∧
    (wc_xdg_surface_commit view xdg_surface).view.is_pending_serial =
      view.is_pending_serial ∧
    (wc_xdg_surface_commit view xdg_surface).view.pending_geometry =
      view.pending_geometry := by
  obtain ⟨px, py⟩ := commit_position view xdg_surface
  obtain ⟨ps, pf⟩ := commit_pending_serial view xdg_surface
  have h0 : ¬ (0 < view.pending_serial) := by omega
  have hx : ¬ (view.mapped = true ∧ 0 < view.pending_serial ∧
      xdg_surface.configure_serial ≤ view.pending_serial ∧
      view.pending_geometry.x ≠ view.geo.x) := fun h => h0 h.2.1
  have hy : ¬ (view.mapped = true ∧ 0 < view.pending_serial ∧
      xdg_surface.configure_serial ≤ view.pending_serial ∧
      view.pending_geometry.y ≠ view.geo.y) := fun h => h0 h.2.1
  have hs : ¬ (view.mapped = true ∧ 0 < view.pending_serial ∧
      xdg_surface.configure_serial = view.pending_serial) := fun h => h0 h.2.1
  rw [if_neg hx] at px
  rw [if_neg hy] at py
  rw [if_neg hs] at ps pf
  refine ⟨px, py, ps, pf, ?_⟩
  by_cases hm : view.mapped = true
  · obtain ⟨-, -, hp, hser, -, -, -⟩ := commit_size_step_frame view xdg_surface
    rw [commit_mapped view xdg_surface hm,
      commit_pending_step_skipped (commit_size_step view xdg_surface).1 xdg_surface
        xdg_surface.geometry (Or.inl (by rw [hser]; exact hnone))]
    exact hp
  · have hm2 : view.mapped = false := by simpa using hm
    simp [wc_xdg_surface_commit, hm2]

/-- Witness of C19: a mapped view at (10, 20) with pending serial 0 and a
pending box at (100, 0) commits a new size with configure serial 0: it stays at
(10, 20). -/
theorem commit_without_pending_witness :
    (wc_xdg_surface_commit
        (sample_view ⟨10, 20, 300, 200⟩ ⟨100, 0, 400, 300⟩ 0 true)
        (sample_surface ⟨0, 0, 280, 250⟩ 300 250 0)).view.geo.x = 10 ∧
    (wc_xdg_surface_commit
        (sample_view ⟨10, 20, 300, 200⟩ ⟨100, 0, 400, 300⟩ 0 true)
        (sample_surface ⟨0, 0, 280, 250⟩ 300 250 0)).view.geo.y = 20 :=
  have h := commit_without_pending
    (sample_view ⟨10, 20, 300, 200⟩ ⟨100, 0, 400, 300⟩ 0 true)
    (sample_surface ⟨0, 0, 280, 250⟩ 300 250 0) rfl
  ⟨h.1, h.2.1⟩

/-- A handler run through `on_view` on a collection whose addresses are pairwise
distinct replaces the view at `addr` by the handler's result on that very view
and leaves every other view as it was. -/
theorem on_view_views (server : wc_server) (addr : Nat) (handler : wc_view → view_effect)
    (hdistinct : (server.views.map wc_view.addr).Nodup) :
    (on_view server addr handler).views =
      server.views.map (fun v => if v.addr = addr then (handler v).view else v) := by
  unfold on_view
  cases hfind : view_at server addr with
  | none =>
    have hnone := List.find?_eq_none.mp hfind
    simp only
    symm
    calc server.views.map (fun v => if v.addr = addr then (handler v).view else v)
        = server.views.map id := by
          apply List.map_congr_left
          intro v hv
          have : ¬ v.addr = addr := by simpa using hnone v hv
          simp [this]
      _ = server.views := List.map_id _
  | some view =>
    have hmem : view ∈ server.views := List.mem_of_find?_eq_some hfind
    have haddr : view.addr = addr := by simpa using List.find?_some hfind
    simp only
    apply List.map_congr_left
    intro v hv
    by_cases h : v.addr = addr
    · have hv2 : v = view :=
        List.inj_on_of_nodup_map hdistinct hv hmem (by rw [h, haddr])
      simp [h, hv2]
    · simp [h]

/-- A grab request, focused or not, writes nothing but the mode and the grab of
the cursor. -/
theorem request_writes_cursor_only (server : wc_server) (view : wc_view)
    (xdg_surface : wlr_xdg_surface) (edges : Nat) :
    wc_xdg_toplevel_request_move server view xdg_surface =
      { server with
        cursor :=
          { server.cursor with
            cursor_mode :=
              (wc_xdg_toplevel_request_move server view xdg_surface).cursor.cursor_mode
            grabbed :=
              (wc_xdg_toplevel_request_move server view xdg_surface).cursor.grabbed } } ∧
    wc_xdg_toplevel_request_resize server view xdg_surface edges =
      { server with
        cursor :=
          { server.cursor with
            cursor_mode :=
              (wc_xdg_toplevel_request_resize server view xdg_surface
                edges).cursor.cursor_mode
            grabbed :=
              (wc_xdg_toplevel_request_resize server view xdg_surface
                edges).cursor.grabbed } } := by
  by_cases hfocus : server.focused_surface = some (wc_view_surface view xdg_surface)
  · rw [request_move_focused server view xdg_surface hfocus,
      request_resize_focused server view xdg_surface edges hfocus]
    exact ⟨rfl, rfl⟩
  · have h : (some (wc_view_surface view xdg_surface) != server.focused_surface) = true := by
      simp only [bne_iff_ne, ne_eq]
      exact fun h => hfocus h.symm
    have hm : wc_xdg_toplevel_request_move server view xdg_surface = server := by
      simp only [wc_xdg_toplevel_request_move, h, if_true]
    have hr : wc_xdg_toplevel_request_resize server view xdg_surface edges = server := by
      simp only [wc_xdg_toplevel_request_resize, h, if_true]
    rw [hm, hr]
    exact ⟨rfl, rfl⟩

/-- C20. Grab requests and unmap never change view geometry.  Request-move and
request-resize, focused or not, return the view collection as it was (geometry,
pending geometry, pending serial, has-pending flag and mapped flag of every
view) and write nothing but the cursor's mode and grab.  Unmap leaves the
geometry, pending geometry, pending serial and has-pending flag of its view as
they were, requests no focus and records exactly one whole-view damage, for that
unchanged box; delivered to the view at an address of a collection with
pairwise distinct addresses, it leaves those four fields of every view
unchanged. -/
theorem grab_and_unmap_frame (server : wc_server) (view : wc_view)
    (xdg_surface : wlr_xdg_surface) (edges : Nat) (addr : Nat) :
    (wc_xdg_toplevel_request_move server view xdg_surface).views = server.views ∧
    (wc_xdg_toplevel_request_resize server view xdg_surface edges).views = server.views ∧
    wc_xdg_toplevel_request_move server view xdg_surface =
      { server with
        cursor :=
          { server.cursor with
            cursor_mode :=
              (wc_xdg_toplevel_request_move server view xdg_surface).cursor.cursor_mode
            grabbed :=
              (wc_xdg_toplevel_request_move server view xdg_surface).cursor.grabbed } } ∧
    wc_xdg_toplevel_request_resize server view xdg_surface edges =
      { server with
        cursor :=
          { server.cursor with
            cursor_mode :=
              (wc_xdg_toplevel_request_resize server view xdg_surface
                edges).cursor.cursor_mode
            grabbed :=
              (wc_xdg_toplevel_request_resize server view xdg_surface
                edges).cursor.grabbed } } ∧
    (wc_xdg_surface_unmap view).view.geo = view.geo ∧
    (wc_xdg_surface_unmap view).view.pending_geometry = view.pending_geometry ∧
    (wc_xdg_surface_unmap view).view.pending_serial = view.pending_serial ∧
    (wc_xdg_surface_unmap view).view.is_pending_serial = view.is_pending_serial ∧
    (wc_xdg_surface_unmap view).damage = [damage_request.whole view.addr view.geo] ∧
    (wc_xdg_surface_unmap view).focus = [] ∧
    ((server.views.map wc_view.addr).Nodup →
      (on_view server addr wc_xdg_surface_unmap).views.map
          (fun v => (v.geo, v.pending_geometry, v.pending_serial, v.is_pending_serial)) =
        server.views.map
          (fun v => (v.geo, v.pending_geometry, v.pending_serial, v.is_pending_serial))) := by
  obtain ⟨hm, hr⟩ := request_writes_cursor_only server view xdg_surface edges
  refine ⟨?_, ?_, hm, hr, rfl, rfl, rfl, rfl, rfl, rfl, ?_⟩
  · rw [hm]
  · rw [hr]
  · intro hdistinct
    rw [on_view_views server addr wc_xdg_surface_unmap hdistinct, List.map_map]
    apply List.map_congr_left
    intro v _
    by_cases h : v.addr = addr
    · simp [h, wc_xdg_surface_unmap]
    · simp [h]

/-- Witness of C20: the unmap signal delivered to the view at address 1 of the
sample server leaves its geometry (40, 50, 300, 200). -/
theorem grab_and_unmap_frame_witness :
    (on_view (sample_server (some 20)) 1 wc_xdg_surface_unmap).views.map
        (fun v => (v.geo, v.pending_geometry, v.pending_serial, v.is_pending_serial)) =
      (sample_server (some 20)).views.map
        (fun v => (v.geo, v.pending_geometry, v.pending_serial, v.is_pending_serial)) :=
  (grab_and_unmap_frame (sample_server (some 20))
    (sample_view ⟨40, 50, 300, 200⟩ ⟨0, 0, 0, 0⟩ 0 true)
    (sample_surface ⟨40, 50, 300, 200⟩ 300 200 0) 0 1).2.2.2.2.2.2.2.2.2.2 (by decide)

end WayCooler
